import Mathlib

/-!
Verification development for the Cairo traffic-optimization engines.

The Python source is shallowly embedded: every numeric value is modelled as
an exact rational (`ℚ`), fallible operations return `Except PyErr`, and the
Python dict/list idioms are modelled by association lists in insertion order.
`networkx` library calls (`shortest_path`, `has_path`, connected components,
clustering) are reimplemented over an explicit edge-list graph; where the
library's tie-breaking is unspecified, the embedding breaks ties by the first
candidate in a deterministic enumeration order, and concrete inputs used in
theorems are chosen so that the optimum is unique.  `math.sqrt` (respectively
`scipy.spatial.distance.euclidean`) produces irrational values in general, so
functions that need it take an explicit square-root function as a parameter;
concrete inputs use perfect squares, where the parameter is fully determined.
-/

/- Batteries marks the `Rat` field operations `@[irreducible]`, which blocks
the `decide` evaluator on closed rational facts; restore the default
transparency for this file so concrete executions reduce. -/
attribute [local semireducible] Rat.mul Rat.inv Rat.add Rat.sub

namespace CairoTraffic

abbrev NodeId := String

instance {ε α : Type} [DecidableEq ε] [DecidableEq α] : DecidableEq (Except ε α) := fun a b =>
  match a, b with
  | .error e, .error f =>
    if h : e = f then .isTrue (by rw [h]) else .isFalse (fun c => h (Except.error.inj c))
  | .error _, .ok _ => .isFalse (fun c => Except.noConfusion c)
  | .ok _, .error _ => .isFalse (fun c => Except.noConfusion c)
  | .ok x, .ok y =>
    if h : x = y then .isTrue (by rw [h]) else .isFalse (fun c => h (Except.ok.inj c))

/-- Python exceptions that escape the embedded functions uncaught. -/
inductive PyErr where
  | indexError
  | nodeNotFound
  | zeroDivisionError
deriving Repr, DecidableEq

/-- Python `int(x)`: truncation toward zero.  `ℚ` is stored in lowest terms,
so dividing the numerator's absolute value by the denominator and restoring
the sign truncates toward zero exactly as Python's `int` does. -/
def ratTrunc (q : ℚ) : ℤ :=
  if q.num < 0 then -((q.num.natAbs / q.den : ℕ) : ℤ) else ((q.num.natAbs / q.den : ℕ) : ℤ)

/-- Python's `min` on two numbers (defined directly so that kernel
evaluation reduces; ties keep the first argument, as Python does). -/
def ratMin (a b : ℚ) : ℚ :=
  if a ≤ b then a else b

/-- Python's `max` on two numbers (ties keep the first argument). -/
def ratMax (a b : ℚ) : ℚ :=
  if b ≤ a then a else b

/-- Lexicographic comparison of two code-point lists (kernel-friendly). -/
def charListLe : List Char → List Char → Bool
  | [], _ => true
  | _ :: _, [] => false
  | c :: cs, d :: ds =>
    if c.toNat < d.toNat then true
    else if d.toNat < c.toNat then false
    else charListLe cs ds

/-- Python's `<=` on strings: lexicographic by code point (agrees with
`String.le`; defined directly so that kernel evaluation reduces). -/
def strLe (a b : String) : Bool :=
  charListLe a.data b.data

/-- Lookup in a Python dict modelled as an association list in insertion
order with later bindings overwriting earlier ones. -/
def dictGet {κ ν : Type} [BEq κ] (l : List (κ × ν)) (k : κ) : Option ν :=
  (l.reverse.find? (fun e => e.1 == k)).map (·.2)

/-- Insert an element into a list sorted by `le`, after all elements that
compare `le` to it (so that repeated insertion is a stable sort, like
Python's `sorted`). -/
def insertSortedBy {α : Type} (le : α → α → Bool) (x : α) : List α → List α
  | [] => [x]
  | y :: ys => if le y x then y :: insertSortedBy le x ys else x :: y :: ys

/-- Stable ascending sort (model of Python's `sorted` with a key). -/
def stableSortBy {α : Type} (le : α → α → Bool) (l : List α) : List α :=
  l.foldl (fun acc x => insertSortedBy le x acc) []

/-- Undirected attributed graph: model of `networkx.Graph`.  Nodes and edges
are kept in insertion order; `ν` is the node-attribute record, `ε` the
edge-attribute record. -/
structure Graph (ν ε : Type) where
  nodes : List (NodeId × ν)
  edges : List (NodeId × NodeId × ε)
deriving Repr, DecidableEq

def Graph.empty {ν ε : Type} : Graph ν ε := ⟨[], []⟩

def Graph.hasNode {ν ε : Type} (g : Graph ν ε) (n : NodeId) : Bool :=
  g.nodes.any (fun p => p.1 == n)

def Graph.nodeAttr {ν ε : Type} (g : Graph ν ε) (n : NodeId) : Option ν :=
  (g.nodes.find? (fun p => p.1 == n)).map (·.2)

/-- Model of `G.add_node`: a repeated `add_node` overwrites the attributes
but keeps the node's position. -/
def Graph.addNode {ν ε : Type} (g : Graph ν ε) (n : NodeId) (v : ν) : Graph ν ε :=
  if g.hasNode n then
    { g with nodes := g.nodes.map (fun p => if p.1 == n then (n, v) else p) }
  else
    { g with nodes := g.nodes ++ [(n, v)] }

def Graph.hasEdge {ν ε : Type} (g : Graph ν ε) (u v : NodeId) : Bool :=
  g.edges.any (fun e => (e.1 == u && e.2.1 == v) || (e.1 == v && e.2.1 == u))

/-- Model of `G.get_edge_data(u, v)`: the unordered pair's attributes. -/
def Graph.getEdge {ν ε : Type} (g : Graph ν ε) (u v : NodeId) : Option ε :=
  (g.edges.find? (fun e => (e.1 == u && e.2.1 == v) || (e.1 == v && e.2.1 == u))).map
    (fun e => e.2.2)

/-- Model of `G.add_edge`: endpoints missing from the graph are added with
the default node attribute `d`; adding an existing unordered pair overwrites
its attributes in place. -/
def Graph.addEdge {ν ε : Type} (g : Graph ν ε) (d : ν) (u v : NodeId) (a : ε) : Graph ν ε :=
  let g1 := if g.hasNode u then g else { g with nodes := g.nodes ++ [(u, d)] }
  let g2 := if g1.hasNode v then g1 else { g1 with nodes := g1.nodes ++ [(v, d)] }
  if g2.hasEdge u v then
    { g2 with
      edges := g2.edges.map (fun e =>
        if (e.1 == u && e.2.1 == v) || (e.1 == v && e.2.1 == u) then (e.1, e.2.1, a) else e) }
  else
    { g2 with edges := g2.edges ++ [(u, v, a)] }

/-- Model of `G.remove_edge` (removes the unordered pair, keeps nodes). -/
def Graph.removeEdge {ν ε : Type} (g : Graph ν ε) (u v : NodeId) : Graph ν ε :=
  { g with
    edges := g.edges.filter (fun e =>
      !((e.1 == u && e.2.1 == v) || (e.1 == v && e.2.1 == u))) }

/-- Neighbours of a node, in edge-insertion order (model of `networkx`
adjacency order for graphs built by successive `add_edge` calls). -/
def Graph.neighborsOf {ν ε : Type} (g : Graph ν ε) (x : NodeId) : List NodeId :=
  g.edges.filterMap (fun e =>
    if e.1 == x then some e.2.1 else if e.2.1 == x then some e.1 else none)

/-- All simple paths from `cur` to `t` avoiding `visited`, enumerated
depth-first with neighbours in adjacency order.  `fuel` bounds the path
length; `g.nodes.length` suffices since simple paths never repeat a node. -/
def simplePathsAux {ν ε : Type} (g : Graph ν ε) (t : NodeId) :
    Nat → NodeId → List NodeId → List (List NodeId)
  | 0, _, _ => []
  | Nat.succ fuel, cur, visited =>
    if cur = t then [[cur]]
    else
      (g.neighborsOf cur).foldr
        (fun n acc =>
          (if (cur :: visited).contains n then []
           else (simplePathsAux g t fuel n (cur :: visited)).map (fun p => cur :: p)) ++ acc)
        []

def Graph.simplePaths {ν ε : Type} (g : Graph ν ε) (s t : NodeId) : List (List NodeId) :=
  simplePathsAux g t g.nodes.length s []

/-- Total weight of a node sequence under edge-weight function `w`
(missing edges contribute 0; theorems only apply this to actual paths). -/
def Graph.pathWeight {ν ε : Type} (g : Graph ν ε) (w : ε → ℚ) : List NodeId → ℚ
  | [] => 0
  | [_] => 0
  | x :: y :: rest =>
    (match g.getEdge x y with
     | some a => w a
     | none => 0) + g.pathWeight w (y :: rest)

/-- First minimum of `f` over a list (deterministic tie-break: the earliest
minimiser wins). -/
def argminBy {α : Type} (f : α → ℚ) : List α → Option α
  | [] => none
  | x :: xs => some (xs.foldl (fun best y => if f y < f best then y else best) x)

/-- Model of `networkx.shortest_path(G, s, t, weight=w)`: the minimum-weight
simple path, `none` when `t` is unreachable from `s`.  `networkx` (Dijkstra)
agrees with this whenever the minimiser is unique, which holds at every
concrete input used below; callers model `NodeNotFound` by checking
`hasNode` first, as the corresponding Python call sites do implicitly. -/
def Graph.shortestPath {ν ε : Type} (g : Graph ν ε) (w : ε → ℚ) (s t : NodeId) :
    Option (List NodeId) :=
  argminBy (g.pathWeight w) (g.simplePaths s t)

/-- Model of `networkx.has_path`. -/
def Graph.hasPath {ν ε : Type} (g : Graph ν ε) (s t : NodeId) : Bool :=
  (g.shortestPath (fun _ => 0) s t).isSome

/-! ## Input tables

One record type per dataframe row; the traffic table is already projected to
the requested `time_column`, mirroring `row[time_column]` lookups. -/

/-- A row of the neighbourhoods dataframe. -/
structure NbRow where
  id : NodeId
  name : String
  population : ℚ
  x : ℚ
  y : ℚ
deriving Repr, DecidableEq

/-- A row of the facilities dataframe. -/
structure FacRow where
  id : NodeId
  name : String
  ftype : String
  x : ℚ
  y : ℚ
deriving Repr, DecidableEq

/-- A row of the existing-roads dataframe. -/
structure RoadRow where
  fromID : NodeId
  toID : NodeId
  distance : ℚ
  capacity : ℚ
  condition : ℚ
deriving Repr, DecidableEq

/-- A row of the traffic-flow dataframe, projected to the requested
`time_column`: `volume` is `row[time_column]`. -/
structure TrafficRow where
  fromID : NodeId
  toID : NodeId
  volume : ℚ
deriving Repr, DecidableEq

/-- The `traffic_dict` built by the routing modules: each row binds both
`(FromID, ToID)` and `(ToID, FromID)` to the row's volume, later rows
overwriting earlier ones. -/
def buildTrafficDict (rows : List TrafficRow) : List ((NodeId × NodeId) × ℚ) :=
  rows.foldl
    (fun d r => d ++ [((r.fromID, r.toID), r.volume), ((r.toID, r.fromID), r.volume)]) []

/-! ## src/traffic_optimization.py -/

/-- Node attributes stored by the routing graph builders (the routing
computations never read them; they are kept for fidelity). -/
structure TONode where
  name : String
  node_type : String
  population : ℚ
  ftype : String
  pos : ℚ × ℚ
deriving Repr, DecidableEq

def toDefaultNode : TONode := ⟨"", "", 0, "", (0, 0)⟩

/-- Edge attributes set by `optimize_traffic_flow`. -/
structure TOEdge where
  distance : ℚ
  capacity : ℚ
  condition : ℚ
  traffic : ℚ
  base_time : ℚ
  time : ℚ
deriving Repr, DecidableEq

/-- One road edge of `optimize_traffic_flow`'s graph build (lines 52-75):
`time = base_time * traffic_adjustment` with the volume looked up under
both orientations and defaulting to half the capacity. -/
def addRoadEdgeTO (tdict : List ((NodeId × NodeId) × ℚ)) (consider_traffic : Bool)
    (congestion_factor : ℚ) (consider_road_quality : Bool)
    (g : Graph TONode TOEdge) (road : RoadRow) : Graph TONode TOEdge :=
  let condition_factor : ℚ := if consider_road_quality then 1/2 + road.condition / 20 else 1
  let base_speed := 60 * condition_factor
  let base_time := road.distance / base_speed * 60
  let traffic_adjustment : ℚ :=
    if consider_traffic then
      let traffic_volume :=
        match dictGet tdict (road.fromID, road.toID) with
        | some v => v
        | none =>
          match dictGet tdict (road.toID, road.fromID) with
          | some v => v
          | none => 1/2 * road.capacity
      let congestion_ratio := ratMin (traffic_volume / road.capacity) 1
      if congestion_ratio < 7/10 then 1 + congestion_ratio * (1/2)
      else 1 + congestion_factor * (congestion_ratio * congestion_ratio)
    else 1
  let travel_time := base_time * traffic_adjustment
  g.addEdge toDefaultNode road.fromID road.toID
    ⟨road.distance, road.capacity, road.condition,
     (dictGet tdict (road.fromID, road.toID)).getD 0, base_time, travel_time⟩

/-- The edge-attribute record `addRoadEdgeTO` stores, as a standalone
function of the road row (same lets as the source lines 52-75). -/
def roadEdgeAttr (tdict : List ((NodeId × NodeId) × ℚ)) (consider_traffic : Bool)
    (congestion_factor : ℚ) (consider_road_quality : Bool) (road : RoadRow) : TOEdge :=
  let condition_factor : ℚ := if consider_road_quality then 1/2 + road.condition / 20 else 1
  let base_speed := 60 * condition_factor
  let base_time := road.distance / base_speed * 60
  let traffic_adjustment : ℚ :=
    if consider_traffic then
      let traffic_volume :=
        match dictGet tdict (road.fromID, road.toID) with
        | some v => v
        | none =>
          match dictGet tdict (road.toID, road.fromID) with
          | some v => v
          | none => 1/2 * road.capacity
      let congestion_ratio := ratMin (traffic_volume / road.capacity) 1
      if congestion_ratio < 7/10 then 1 + congestion_ratio * (1/2)
      else 1 + congestion_factor * (congestion_ratio * congestion_ratio)
    else 1
  ⟨road.distance, road.capacity, road.condition,
   (dictGet tdict (road.fromID, road.toID)).getD 0, base_time, base_time * traffic_adjustment⟩

/-- Graph construction of `optimize_traffic_flow` (lines 31-75): nodes from
both tables, then one edge per road. -/
def buildTOGraph (nbs : List NbRow) (fac : List FacRow) (roads : List RoadRow)
    (tdict : List ((NodeId × NodeId) × ℚ)) (consider_traffic : Bool)
    (congestion_factor : ℚ) (consider_road_quality : Bool) : Graph TONode TOEdge :=
  let g0 : Graph TONode TOEdge := Graph.empty
  let g1 := nbs.foldl
    (fun g r => g.addNode r.id ⟨r.name, "neighborhood", r.population, "", (r.x, r.y)⟩) g0
  let g2 := fac.foldl
    (fun g r => g.addNode r.id ⟨r.name, "facility", 0, r.ftype, (r.x, r.y)⟩) g1
  roads.foldl (addRoadEdgeTO tdict consider_traffic congestion_factor consider_road_quality) g2

/-- Python's `(min(u, v), max(u, v))` on id strings. -/
def ordPair (u v : NodeId) : NodeId × NodeId :=
  if strLe u v then (u, v) else (v, u)

/-- The consecutive unordered edges of a node sequence, in order. -/
def pathPairs (p : List NodeId) : List (NodeId × NodeId) :=
  (p.zip p.tail).map (fun q => ordPair q.1 q.2)

/-- The set of unordered edges of a node sequence, as a deduplicated list
(model of the Python `set` comprehensions over consecutive pairs). -/
def pyEdgeSet (p : List NodeId) : List (NodeId × NodeId) :=
  (pathPairs p).dedup

/-- Result tuple of `optimize_traffic_flow`. -/
structure TOResult where
  optimal_path : List NodeId
  optimal_distance : ℚ
  optimal_time : ℚ
  alternative_paths : List (List NodeId)
  alternative_distances : List ℚ
  alternative_times : List ℚ
  error_message : Option String
deriving Repr, DecidableEq

/-- The accumulating state of the alternative-path loop. -/
structure AltState where
  alts : List (List NodeId)
  dists : List ℚ
  times : List ℚ
  excluded : List (NodeId × NodeId)
deriving Repr, DecidableEq

/-- One iteration of the alternative-path loop of `optimize_traffic_flow`
(lines 93-123): a fresh copy of `G` is taken, the `i`-th optimal-path edge
(if any, and not yet excluded) is removed from that copy only, and the
re-search result is accepted iff it is new and either sufficiently diverse
or the first alternative found. -/
def altIteration (G : Graph TONode TOEdge) (from_id to_id : NodeId)
    (optimal_path : List NodeId) (optimal_edges : List (NodeId × NodeId))
    (diversity_threshold : ℚ) (i : Nat) (st : AltState) : AltState :=
  let removal :=
    if i < optimal_path.length - 1 then
      let u := optimal_path.getD i ""
      let v := optimal_path.getD (i + 1) ""
      let edge := ordPair u v
      if edge ∈ st.excluded then none else some (u, v, edge)
    else none
  let G_alt := match removal with
    | some (u, v, _) => G.removeEdge u v
    | none => G
  let excluded := match removal with
    | some (_, _, edge) => st.excluded ++ [edge]
    | none => st.excluded
  match G_alt.shortestPath (fun e => e.time) from_id to_id with
  | none => { st with excluded := excluded }
  | some alt_path =>
    let alt_edges := pyEdgeSet alt_path
    let common_edges := optimal_edges.filter (fun e => e ∈ alt_edges)
    let diversity : ℚ :=
      1 - (common_edges.length : ℚ) / (max optimal_edges.length alt_edges.length : ℚ)
    if (diversity ≥ diversity_threshold ∨ st.alts = []) ∧ alt_path ∉ st.alts then
      { alts := st.alts ++ [alt_path],
        dists := st.dists ++ [G.pathWeight (fun e => e.distance) alt_path],
        times := st.times ++ [G.pathWeight (fun e => e.time) alt_path],
        excluded := excluded }
    else
      { st with excluded := excluded }

/-- The alternative-path loop `for i in range(max_alternatives)`. -/
def altLoop (G : Graph TONode TOEdge) (from_id to_id : NodeId)
    (optimal_path : List NodeId) (optimal_edges : List (NodeId × NodeId))
    (diversity_threshold : ℚ) (idxs : List Nat) (st : AltState) : AltState :=
  idxs.foldl
    (fun s i => altIteration G from_id to_id optimal_path optimal_edges diversity_threshold i s)
    st

/-- Embedding of `optimize_traffic_flow` (src/traffic_optimization.py,
lines 5-129).  A missing origin or destination node makes
`nx.shortest_path` raise `NodeNotFound`, which no handler catches (only
`NetworkXNoPath` is); a disconnected pair is caught and reported through
`error_message`.  Note for `from_id = to_id` the Python code would divide
by zero in the diversity computation; the embedding's total division gives
`0/0 = 0` there, and no theorem below touches that case. -/
def optimize_traffic_flow (nbs : List NbRow) (fac : List FacRow) (roads : List RoadRow)
    (traffic : List TrafficRow) (from_id to_id : NodeId) (consider_traffic : Bool)
    (congestion_factor : ℚ) (consider_road_quality : Bool) (max_alternatives : Nat)
    (diversity_threshold : ℚ) : Except PyErr TOResult :=
  let tdict := buildTrafficDict traffic
  let G := buildTOGraph nbs fac roads tdict consider_traffic congestion_factor
    consider_road_quality
  if G.hasNode from_id && G.hasNode to_id then
    match G.shortestPath (fun e => e.time) from_id to_id with
    | none =>
      Except.ok ⟨[], 0, 0, [], [], [],
        some "No path exists between the selected origin and destination."⟩
    | some optimal_path =>
      let optimal_distance := G.pathWeight (fun e => e.distance) optimal_path
      let optimal_time := G.pathWeight (fun e => e.time) optimal_path
      let optimal_edges := pyEdgeSet optimal_path
      let final := altLoop G from_id to_id optimal_path optimal_edges diversity_threshold
        (List.range max_alternatives) ⟨[], [], [], []⟩
      Except.ok ⟨optimal_path, optimal_distance, optimal_time,
        final.alts, final.dists, final.times, none⟩
  else
    Except.error PyErr.nodeNotFound

/-! ## Spec-side definitions for the time-dependent router claims

These are written from the specification's words, to be compared with the
source-derived definitions above. -/

/-- Spec §4.2: base time = distance divided by the condition-derived speed
(flat 60 km/h when road quality is ignored), converted to minutes. -/
def specBaseTime (consider_road_quality : Bool) (road : RoadRow) : ℚ :=
  let speed : ℚ := if consider_road_quality then 60 * (1/2 + road.condition / 20) else 60
  road.distance / speed * 60

/-- Spec §4.2: the volume recorded for the road in either direction (the
last recorded measurement wins when several exist), defaulting to half the
capacity when none exists. -/
def specVolume (traffic : List TrafficRow) (road : RoadRow) : ℚ :=
  match (traffic.filter (fun t =>
      (t.fromID = road.fromID ∧ t.toID = road.toID) ∨
      (t.fromID = road.toID ∧ t.toID = road.fromID))).getLast? with
  | some t => t.volume
  | none => 1/2 * road.capacity

/-- Spec §4.2: traffic adjustment, 1 when traffic is ignored, otherwise
piecewise in `ratio = min(volume/capacity, 1)` with knee at 0.7. -/
def specTrafficAdjustment (consider_traffic : Bool) (congestion_factor : ℚ)
    (volume capacity : ℚ) : ℚ :=
  if consider_traffic then
    let ratio := ratMin (volume / capacity) 1
    if ratio < 7/10 then 1 + (1/2) * ratio else 1 + congestion_factor * (ratio * ratio)
  else 1

/-- Claim C4's description of the alternative generation, written from the
claim's words: one optimal-path edge removed per iteration with removals
accumulating, so the i-th re-search runs in a graph missing every
previously removed optimal-path edge; acceptance rule as in the claim. -/
def claimAltsAccumulating (G : Graph TONode TOEdge) (from_id to_id : NodeId)
    (optimal_path : List NodeId) (optimal_edges : List (NodeId × NodeId))
    (diversity_threshold : ℚ) (max_alternatives : Nat) : List (List NodeId) :=
  ((List.range max_alternatives).foldl
    (fun (st : Graph TONode TOEdge × List (List NodeId)) i =>
      let G_pruned :=
        if i < optimal_path.length - 1 then
          st.1.removeEdge (optimal_path.getD i "") (optimal_path.getD (i + 1) "")
        else st.1
      match G_pruned.shortestPath (fun e => e.time) from_id to_id with
      | none => (G_pruned, st.2)
      | some alt_path =>
        let alt_edges := pyEdgeSet alt_path
        let common_edges := optimal_edges.filter (fun e => e ∈ alt_edges)
        let diversity : ℚ :=
          1 - (common_edges.length : ℚ) / (max optimal_edges.length alt_edges.length : ℚ)
        if (diversity ≥ diversity_threshold ∨ st.2 = []) ∧ alt_path ∉ st.2 then
          (G_pruned, st.2 ++ [alt_path])
        else (G_pruned, st.2))
    (G, [])).2

/-- One iteration of the amended description of the alternative
generation: the i-th re-search runs in a fresh copy of the graph from
which only the i-th optimal-path edge has been removed (the full graph
when `i` is past the last edge); acceptance rule unchanged. -/
def specAltStep (G : Graph TONode TOEdge) (from_id to_id : NodeId)
    (optimal_path : List NodeId) (optimal_edges : List (NodeId × NodeId))
    (diversity_threshold : ℚ) (alts : List (List NodeId)) (i : Nat) : List (List NodeId) :=
  let G_i :=
    if i < optimal_path.length - 1 then
      G.removeEdge (optimal_path.getD i "") (optimal_path.getD (i + 1) "")
    else G
  match G_i.shortestPath (fun e => e.time) from_id to_id with
  | none => alts
  | some alt_path =>
    let alt_edges := pyEdgeSet alt_path
    let common_edges := optimal_edges.filter (fun e => e ∈ alt_edges)
    let diversity : ℚ :=
      1 - (common_edges.length : ℚ) / (max optimal_edges.length alt_edges.length : ℚ)
    if (diversity ≥ diversity_threshold ∨ alts = []) ∧ alt_path ∉ alts then
      alts ++ [alt_path]
    else alts

/-- The amended description of the alternative generation as a whole. -/
def specAltsFresh (G : Graph TONode TOEdge) (from_id to_id : NodeId)
    (optimal_path : List NodeId) (optimal_edges : List (NodeId × NodeId))
    (diversity_threshold : ℚ) (max_alternatives : Nat) : List (List NodeId) :=
  (List.range max_alternatives).foldl
    (specAltStep G from_id to_id optimal_path optimal_edges diversity_threshold) []

/-! ### Concrete router inputs -/

/-- Five locations; distances chosen so every shortest path is unique. -/
def nbsAlt : List NbRow :=
  [⟨"A", "A", 0, 0, 0⟩, ⟨"B", "B", 0, 1, 0⟩, ⟨"C", "C", 0, 2, 0⟩,
   ⟨"D", "D", 0, 0, 1⟩, ⟨"X", "X", 0, 1, 1⟩]

/-- Roads A-B-C (optimal), detour A-D-C, bypass B-X-C. -/
def roadsAlt : List RoadRow :=
  [⟨"A", "B", 1, 1000, 10⟩, ⟨"B", "C", 1, 1000, 10⟩,
   ⟨"A", "D", 5, 1000, 10⟩, ⟨"D", "C", 5, 1000, 10⟩,
   ⟨"B", "X", 2, 1000, 10⟩, ⟨"X", "C", 2, 1000, 10⟩]

/-- The full result of the router on `nbsAlt`/`roadsAlt` from A to C with
traffic and road quality ignored: optimal path A-B-C, then the detour
A-D-C from iteration 0 (edge A-B removed) and the bypass A-B-X-C from
iteration 1 (edge B-C removed); iteration 2 removes nothing and re-finds
A-B-C, rejected for zero diversity. -/
def rC4 : TOResult :=
  ⟨["A", "B", "C"], 2, 2, [["A", "D", "C"], ["A", "B", "X", "C"]], [10, 5], [10, 5], none⟩

/-- Two locations joined by a single road. -/
def nbsTwo : List NbRow := [⟨"A", "A", 0, 0, 0⟩, ⟨"B", "B", 0, 1, 0⟩]

/-- The single road of the two-node network. -/
def roadsTwo : List RoadRow := [⟨"A", "B", 1, 1000, 10⟩]

/-! ## src/emergency_response.py -/

/-- Python dict assignment `d[k] = v`: overwrite in place or append. -/
def dictSet {κ ν : Type} [BEq κ] (l : List (κ × ν)) (k : κ) (v : ν) : List (κ × ν) :=
  if l.any (fun p => p.1 == k) then
    l.map (fun p => if p.1 == k then (k, v) else p)
  else l ++ [(k, v)]

/-- One entry of the preemption plan built by
`preempt_intersection_signals`; the ineffective branch stores a `reason`
and the effective one does not. -/
structure PreemptEntry where
  primary_direction : String
  time_saved : ℚ
  emergency_green_time : ℚ
  transition_time : ℚ
  emergency_actions : List String
  preemption_available : Bool
  preemption_effective : Bool
  reason : Option String
deriving Repr, DecidableEq

/-- One iteration of `preempt_intersection_signals`'s loop (lines 12-65):
skip unknown intersections, otherwise store the plan entry under the node
and accumulate the saved time.  The volume lookup is directional: only
rows with `FromID = path[i-1]` and `ToID = path[i]` match (first match
wins, as `.iloc[0]` does), and a missing row defaults to 1000. -/
def preemptStep (intersections : List NodeId) (signals : List (NodeId × ℚ))
    (emergency_path : List NodeId) (traffic : List TrafficRow)
    (st : List (NodeId × PreemptEntry) × ℚ) (i : Nat) :
    List (NodeId × PreemptEntry) × ℚ :=
  let node_id := emergency_path.getD i ""
  if node_id ∈ intersections ∧ signals.any (fun p => p.1 == node_id) then
    let cycle_time := ((signals.find? (fun p => p.1 == node_id)).map (fun p => p.2)).getD 60
    let prev := emergency_path.getD (i - 1) ""
    let incoming_road := prev ++ "-" ++ node_id
    let traffic_volume :=
      match traffic.find? (fun r => r.fromID == prev && r.toID == node_id) with
      | some r => r.volume
      | none => 1000
    if traffic_volume ≥ 1000 then
      let time_saved := cycle_time / 2
      let actions :=
        ["Detect emergency vehicle on road " ++ incoming_road,
         "Set green light for " ++ incoming_road ++ " (15s)",
         "Pause conflicting directions (red)",
         "Transition back to normal timing after 2s"]
      (dictSet st.1 node_id ⟨incoming_road, time_saved, 15, 2, actions, true, true, none⟩,
       st.2 + time_saved)
    else
      (dictSet st.1 node_id ⟨incoming_road, 0, 0, 0, [], true, false,
         some "Low traffic volume"⟩,
       st.2)
  else st

/-- Embedding of `preempt_intersection_signals` (src/emergency_response.py,
lines 8-67).  `intersections` is the key set of the intersections dict (its
values are never read), `signals` maps an intersection to its plan's
`cycle_time`. -/
def preempt_intersection_signals (intersections : List NodeId)
    (signals : List (NodeId × ℚ)) (emergency_path : List NodeId)
    (traffic : List TrafficRow) : List (NodeId × PreemptEntry) × ℚ :=
  (List.range' 1 (emergency_path.length - 2)).foldl
    (preemptStep intersections signals emergency_path traffic) ([], 0)

/-- Edge attributes set by `plan_emergency_routes`. -/
structure EREdge where
  distance : ℚ
  capacity : ℚ
  condition : ℚ
  traffic : ℚ
  regular_time : ℚ
  emergency_time : ℚ
  road_condition : ℚ
deriving Repr, DecidableEq

/-- One road edge of `plan_emergency_routes`'s graph build (lines 96-126):
road quality always considered, congestion factor fixed at 2.0, and
`emergency_time = regular_time * max(0.2, 1 - 0.3 * priority_level)`. -/
def addRoadEdgeER (tdict : List ((NodeId × NodeId) × ℚ)) (priority_level : ℚ)
    (g : Graph TONode EREdge) (road : RoadRow) : Graph TONode EREdge :=
  let condition_factor : ℚ := 1/2 + road.condition / 20
  let base_speed := 60 * condition_factor
  let base_time := road.distance / base_speed * 60
  let traffic_volume :=
    match dictGet tdict (road.fromID, road.toID) with
    | some v => v
    | none =>
      match dictGet tdict (road.toID, road.fromID) with
      | some v => v
      | none => 1/2 * road.capacity
  let congestion_ratio := ratMin (traffic_volume / road.capacity) 1
  let traffic_adjustment : ℚ :=
    if congestion_ratio < 7/10 then 1 + congestion_ratio * (1/2)
    else 1 + 2 * (congestion_ratio * congestion_ratio)
  let regular_time := base_time * traffic_adjustment
  let priority_factor := ratMax (1/5) (1 - 3/10 * priority_level)
  let emergency_time := regular_time * priority_factor
  g.addEdge toDefaultNode road.fromID road.toID
    ⟨road.distance, road.capacity, road.condition,
     (dictGet tdict (road.fromID, road.toID)).getD 0, regular_time, emergency_time,
     road.condition⟩

/-- Graph construction of `plan_emergency_routes` (lines 73-126). -/
def buildERGraph (nbs : List NbRow) (fac : List FacRow) (roads : List RoadRow)
    (tdict : List ((NodeId × NodeId) × ℚ)) (priority_level : ℚ) : Graph TONode EREdge :=
  let g0 : Graph TONode EREdge := Graph.empty
  let g1 := nbs.foldl
    (fun g r => g.addNode r.id ⟨r.name, "neighborhood", r.population, "", (r.x, r.y)⟩) g0
  let g2 := fac.foldl
    (fun g r => g.addNode r.id ⟨r.name, "facility", 0, r.ftype, (r.x, r.y)⟩) g1
  roads.foldl (addRoadEdgeER tdict priority_level) g2

/-- The `node_positions` dict of `plan_emergency_routes` (lines 91-94). -/
def buildNodePositions (nbs : List NbRow) (fac : List FacRow) : List (NodeId × (ℚ × ℚ)) :=
  let d := nbs.foldl (fun d r => dictSet d r.id (r.x, r.y)) ([] : List (NodeId × (ℚ × ℚ)))
  fac.foldl (fun d r => dictSet d r.id (r.x, r.y)) d

/-- The straight-line heuristic of `plan_emergency_routes` (lines 144-152):
`sqrt(dx^2 + dy^2) * 111 / 80 * 60` minutes, 0 when a position is missing.
`sqrtFn` models `math.sqrt`. -/
def erHeuristic (sqrtFn : ℚ → ℚ) (positions : List (NodeId × (ℚ × ℚ))) (to_id : NodeId)
    (node : NodeId) : ℚ :=
  match (positions.find? (fun p => p.1 == node)).map (fun p => p.2),
      (positions.find? (fun p => p.1 == to_id)).map (fun p => p.2) with
  | some from_pos, some to_pos =>
    let dx := from_pos.1 - to_pos.1
    let dy := from_pos.2 - to_pos.2
    let straight_distance := sqrtFn (dx * dx + dy * dy)
    straight_distance * 111 / 80 * 60
  | _, _ => 0

/-- Strict lexicographic comparison of code-point lists. -/
def charListLt : List Char → List Char → Bool
  | [], [] => false
  | [], _ :: _ => true
  | _ :: _, [] => false
  | c :: cs, d :: ds =>
    if c.toNat < d.toNat then true
    else if d.toNat < c.toNat then false
    else charListLt cs ds

/-- Comparison of `heapq` entries `(f_score, node)`: Python tuple order. -/
def heapEntryLt (a b : ℚ × NodeId) : Bool :=
  a.1 < b.1 || (a.1 == b.1 && charListLt a.2.data b.2.data)

/-- Pop of the binary-heap minimum: the least entry in `(f, node)` tuple
order (first occurrence on exact ties). -/
def heapPopMin (frontier : List (ℚ × NodeId)) : Option ((ℚ × NodeId) × List (ℚ × NodeId)) :=
  match frontier with
  | [] => none
  | x :: xs =>
    let best := xs.foldl (fun b y => if heapEntryLt y b then y else b) x
    some (best, frontier.erase best)

/-- Path reconstruction of the inner `a_star_search` (walk `came_from` from
the goal, then reverse). -/
def reconstructPath (came_from : List (NodeId × NodeId)) : Nat → NodeId → List NodeId
  | 0, cur => [cur]
  | Nat.succ fuel, cur =>
    match came_from.find? (fun p => p.1 == cur) with
    | some p => cur :: reconstructPath came_from fuel p.2
    | none => [cur]

/-- The main loop of the inner `a_star_search` of `plan_emergency_routes`
(lines 179-213): scores start at infinity (`none`), an edge weight of at
most 0 is clamped to 0.1, popped nodes enter `visited`, and neighbours
already visited are skipped.  `fuel` bounds the number of loop iterations;
it is chosen large enough for every concrete run below, and a `none` from
fuel exhaustion coincides with the source's fallback behaviour. -/
def aStarLoop (g : Graph TONode EREdge) (h : NodeId → ℚ) (goal : NodeId) :
    Nat → List (ℚ × NodeId) → List (NodeId × NodeId) → List (NodeId × ℚ) →
    List NodeId → Option (List NodeId)
  | 0, _, _, _, _ => none
  | Nat.succ fuel, frontier, came_from, g_score, visited =>
    match heapPopMin frontier with
    | none => none
    | some (entry, rest) =>
      let current := entry.2
      if current = goal then
        some (reconstructPath came_from (g.nodes.length + 1) current).reverse
      else
        let visited := current :: visited
        let st := (g.neighborsOf current).foldl
          (fun (st : List (ℚ × NodeId) × List (NodeId × NodeId) × List (NodeId × ℚ)) neighbor =>
            if visited.contains neighbor then st
            else
              let weight0 := ((g.getEdge current neighbor).map (fun e => e.emergency_time)).getD 0
              let weight := if weight0 ≤ 0 then 1/10 else weight0
              let cur_g := ((g_score.find? (fun p => p.1 == current)).map (fun p => p.2)).getD 0
              let tentative := cur_g + weight
              let old := (st.2.2.find? (fun p => p.1 == neighbor)).map (fun p => p.2)
              if (match old with
                  | none => true
                  | some q => tentative < q) then
                let f := tentative + h neighbor
                (st.1 ++ [(f, neighbor)], dictSet st.2.1 neighbor current,
                 dictSet st.2.2 neighbor tentative)
              else st)
          (rest, came_from, g_score)
        aStarLoop g h goal fuel st.1 st.2.1 st.2.2 visited

/-- Embedding of the inner `a_star_search` (lines 179-213): `g_score` holds
only finite entries (a missing entry models infinity), so the comparison
against infinity always relaxes. -/
def a_star_search (g : Graph TONode EREdge) (h : NodeId → ℚ) (start goal : NodeId) :
    Option (List NodeId) :=
  aStarLoop g h goal ((g.nodes.length + g.edges.length + 1) * (g.nodes.length + 1))
    [(0, start)] [] [(start, 0)] []

/-- Double every edge's `emergency_time` (clearing step, lines 163-165). -/
def doubleEmergencyTimes (g : Graph TONode EREdge) : Graph TONode EREdge :=
  { g with edges := g.edges.map (fun e => (e.1, e.2.1, { e.2.2 with
      emergency_time := e.2.2.emergency_time * 2 })) }

/-- Overwrite the `emergency_time` attribute of one unordered edge
(`G_emergency[u][v]['emergency_time'] = ...`, line 177). -/
def setEmergencyTime (g : Graph TONode EREdge) (u v : NodeId) (t : ℚ) : Graph TONode EREdge :=
  { g with edges := g.edges.map (fun e =>
      if (e.1 == u && e.2.1 == v) || (e.1 == v && e.2.1 == u) then
        (e.1, e.2.1, { e.2.2 with emergency_time := t })
      else e) }

/-- The route-clearing transformation (lines 156-177): double everything,
then set each edge of the unclearled emergency path to
`base_time * max(0.1, 0.7 - 0.2 * priority_level) * 0.5`, with `base_time`
recomputed from the original graph's distance and road condition. -/
def applyRouteClearing (G : Graph TONode EREdge) (path : List NodeId)
    (priority_level : ℚ) : Graph TONode EREdge :=
  let G2 := doubleEmergencyTimes G
  (List.range (path.length - 1)).foldl
    (fun g i =>
      let u := path.getD i ""
      let v := path.getD (i + 1) ""
      match G.getEdge u v with
      | some ed =>
        let base_time := ed.distance / (60 * (1/2 + ed.road_condition / 20)) * 60
        let reduced_traffic_factor := ratMax (1/10) (7/10 - 1/5 * priority_level)
        setEmergencyTime g u v (base_time * reduced_traffic_factor * (1/2))
      | none => g)
    G2

/-- Result tuple of `plan_emergency_routes`. -/
structure ERResult where
  emergency_path : List NodeId
  regular_path : List NodeId
  emergency_time : ℚ
  regular_time : ℚ
  time_saved_route : ℚ
  emergency_distance : ℚ
  preemption_plan : List (NodeId × PreemptEntry)
  time_saved_signals : ℚ
deriving Repr, DecidableEq

/-- Embedding of `plan_emergency_routes` (src/emergency_response.py, lines
69-248).  `sqrtFn` models `math.sqrt` in the A* heuristic.  The optional
`intersections`/`signals` arguments are modelled as lists, with `[]`
standing for Python's falsy `None` (and for an empty dict, which the
`if intersections and signals` guard treats identically).  Unknown
endpoints and disconnected pairs return the all-empty tuple (the Python
code shows a UI error and returns the same tuple). -/
def plan_emergency_routes (sqrtFn : ℚ → ℚ) (nbs : List NbRow) (fac : List FacRow)
    (roads : List RoadRow) (traffic : List TrafficRow) (from_id to_id : NodeId)
    (priority_level : ℚ) (route_clearing : Bool) (intersections : List NodeId)
    (signals : List (NodeId × ℚ)) : ERResult :=
  let tdict := buildTrafficDict traffic
  let G := buildERGraph nbs fac roads tdict priority_level
  let positions := buildNodePositions nbs fac
  if G.hasNode from_id && G.hasNode to_id then
    if G.hasPath from_id to_id then
      match G.shortestPath (fun e => e.regular_time) from_id to_id with
      | none => ⟨[], [], 0, 0, 0, 0, [], 0⟩
      | some regular_path =>
        let regular_distance := G.pathWeight (fun e => e.distance) regular_path
        let regular_time := G.pathWeight (fun e => e.regular_time) regular_path
        let G_emergency :=
          if route_clearing then
            match G.shortestPath (fun e => e.emergency_time) from_id to_id with
            | some path_no_clearing => applyRouteClearing G path_no_clearing priority_level
            | none => G
          else G
        let h := erHeuristic sqrtFn positions to_id
        match a_star_search G_emergency h from_id to_id with
        | none =>
          ⟨regular_path, regular_path, regular_time, regular_time, 0, regular_distance, [], 0⟩
        | some emergency_path =>
          let emergency_distance := G_emergency.pathWeight (fun e => e.distance) emergency_path
          let emergency_time :=
            G_emergency.pathWeight (fun e => e.emergency_time) emergency_path
          let time_saved_route := regular_time - emergency_time
          let pre :=
            if !intersections.isEmpty && !signals.isEmpty then
              preempt_intersection_signals intersections signals emergency_path traffic
            else ([], 0)
          ⟨emergency_path, regular_path, emergency_time, regular_time, time_saved_route,
           emergency_distance, pre.1, pre.2⟩
    else ⟨[], [], 0, 0, 0, 0, [], 0⟩
  else ⟨[], [], 0, 0, 0, 0, [], 0⟩

/-! ## src/traffic_signals.py -/

/-- Python's `max` on two integers (ties keep the first argument). -/
def intMax (a b : ℤ) : ℤ :=
  if b ≤ a then a else b

/-- One signal phase (`phases` entries built at lines 83-88 and completed
with `green_time` at lines 102-109). -/
structure Phase where
  road_id : String
  volume : ℚ
  saturation : ℚ
  urgency : ℚ
  green_time : ℤ
deriving Repr, DecidableEq

/-- The `performance` sub-dict of a signal plan. -/
structure SignalPerformance where
  efficiency : ℚ
  avg_wait_time : ℚ
  queue_lengths : List ℚ
deriving Repr, DecidableEq

/-- One intersection's signal plan. -/
structure SignalPlan where
  cycle_time : ℚ
  phases : List Phase
  performance : SignalPerformance
deriving Repr, DecidableEq

/-- The traffic rows incident to a node (line 65-67: `ToID` or `FromID`
equals the intersection id). -/
def incidentRows (traffic : List TrafficRow) (node_id : NodeId) : List TrafficRow :=
  traffic.filter (fun r => r.toID == node_id || r.fromID == node_id)

/-- Total incoming/outgoing volume at an intersection (line 69). -/
def totalVolumeAt (traffic : List TrafficRow) (n : NodeId) : ℚ :=
  (incidentRows traffic n).foldl (fun s r => s + r.volume) 0

/-- The per-intersection computation of `real_time_signal_optimization`
(src/traffic_signals.py, lines 62-127), factored out of the loop body: the
body reads nothing of the accumulated `signals` dict, so the plan is a
function of the intersection alone. -/
def signalPlanFor (traffic : List TrafficRow) (roads : List RoadRow)
    (node_id : NodeId) : SignalPlan :=
  let traffic_data := incidentRows traffic node_id
  let total_volume := traffic_data.foldl (fun s r => s + r.volume) 0
  let phases0 := traffic_data.map (fun r =>
    let road_id :=
      if r.toID == node_id then r.fromID ++ "-" ++ r.toID else r.toID ++ "-" ++ r.fromID
    let road_data := roads.find? (fun rd =>
      (rd.fromID == r.fromID && rd.toID == r.toID) ||
      (rd.fromID == r.toID && rd.toID == r.fromID))
    let capacity := (road_data.map (fun rd => rd.capacity)).getD 3000
    (⟨road_id, r.volume, ratMin (r.volume / capacity) 1, 0, 0⟩ : Phase))
  let cycle_time : ℚ := if total_volume < 2000 then 90 else if total_volume ≤ 5000 then 120
    else 180
  let total_green : ℚ := cycle_time - (phases0.length : ℚ) * 2
  let phases := phases0.map (fun ph =>
    let green_time : ℤ :=
      if total_volume > 0 then intMax 10 (ratTrunc (ph.volume / total_volume * total_green))
      else 10
    { ph with green_time := green_time })
  let avg_wait : ℚ :=
    if phases.length = 0 then 0
    else
      (phases.foldl (fun s ph => s + ph.saturation * (cycle_time - (ph.green_time : ℚ)) / 2) 0)
        / (phases.length : ℚ)
  let efficiency : ℚ :=
    if total_volume > 0 then
      (phases.foldl (fun s ph => s + (ph.green_time : ℚ) * ph.volume) 0)
        / (cycle_time * total_volume)
    else 1
  let queue_lengths :=
    phases.map (fun ph => ph.volume * (cycle_time - (ph.green_time : ℚ)) / 3600)
  ⟨cycle_time, phases, ⟨efficiency, avg_wait, queue_lengths⟩⟩

/-- Embedding of `real_time_signal_optimization` (src/traffic_signals.py,
lines 49-129): one plan per intersection id, accumulated into a dict. -/
def real_time_signal_optimization (intersections : List NodeId)
    (traffic : List TrafficRow) (roads : List RoadRow) : List (NodeId × SignalPlan) :=
  intersections.foldl
    (fun signals node_id => dictSet signals node_id (signalPlanFor traffic roads node_id)) []

/-! ## src/infrastructure.py

Line 102 of the source (`if from_node_type  facility_priority = 1.5`) is a
stray syntactically invalid fragment, so the Python module as committed does
not even import; the embedding follows the surrounding lines 101-108, which
implement the facility-priority discount the fragment interrupts. -/

/-- A row of the potential-roads dataframe (candidate roads). -/
structure PotRoadRow where
  fromID : NodeId
  toID : NodeId
  distance : ℚ
  capacity : ℚ
  cost : ℚ
deriving Repr, DecidableEq

/-- Edge attributes of the network-design graph. -/
structure InfEdge where
  weight : ℚ
  time_cost : ℚ
  distance : ℚ
  capacity : ℚ
  condition : ℚ
  road_type : String
  cost : ℚ
deriving Repr, DecidableEq

/-- The edge tuples `(modified_time, u, v, distance, cost, population_served)`
collected for Kruskal (line 127). -/
structure KEdge where
  weight : ℚ
  u : NodeId
  v : NodeId
  distance : ℚ
  cost : ℚ
  pop : ℚ
deriving Repr, DecidableEq

/-- Base graph of `create_mst_network` (lines 34-65): nodes from both
tables and one zero-cost `existing` edge per road, with
`travel_time = distance / (60 * (1 - 0.5 * (11 - condition) / 5)) * 60`. -/
def buildInfBase (nbs : List NbRow) (fac : List FacRow) (roads : List RoadRow) :
    Graph TONode InfEdge :=
  let g0 : Graph TONode InfEdge := Graph.empty
  let g1 := nbs.foldl
    (fun g r => g.addNode r.id ⟨r.name, "neighborhood", r.population, "", (r.x, r.y)⟩) g0
  let g2 := fac.foldl
    (fun g r => g.addNode r.id ⟨r.name, "facility", 0, r.ftype, (r.x, r.y)⟩) g1
  roads.foldl (fun g road =>
    let condition_factor := (11 - road.condition) / 5
    let avg_speed := 60 * (1 - condition_factor * (1/2))
    let travel_time := road.distance / avg_speed * 60
    g.addEdge toDefaultNode road.fromID road.toID
      ⟨travel_time, travel_time, road.distance, road.capacity, road.condition,
       "existing", 0⟩) g2

/-- The population field a node contributes
(`G_potential.nodes[x].get('population', 0)`; facilities store none). -/
def popOf (g : Graph TONode InfEdge) (n : NodeId) : ℚ :=
  ((g.nodeAttr n).map (fun a => a.population)).getD 0

/-- Potential-road weighting of `create_mst_network` (lines 83-127): the
travel time (condition assumed 8) is discounted by a population factor for
populated endpoints and a facility-priority factor, intensified by 1.5 for
Medical and Transit Hub facilities; already-connected pairs are skipped. -/
def addPotentialRoad (population_weight facility_priority : ℚ)
    (st : Graph TONode InfEdge × List KEdge) (road : PotRoadRow) :
    Graph TONode InfEdge × List KEdge :=
  let g := st.1
  if g.hasEdge road.fromID road.toID then st
  else
    let from_attr := g.nodeAttr road.fromID
    let to_attr := g.nodeAttr road.toID
    let from_node_type := ((from_attr.map (fun a => a.node_type))).getD "unknown"
    let to_node_type := ((to_attr.map (fun a => a.node_type))).getD "unknown"
    let population_served :=
      (if from_node_type == "neighborhood" then
        ((from_attr.map (fun a => a.population)).getD 0) else 0) +
      (if to_node_type == "neighborhood" then
        ((to_attr.map (fun a => a.population)).getD 0) else 0)
    let population_factor : ℚ :=
      if population_served > 0 then
        1 / (1 + population_weight * population_served / 1000000)
      else 1
    let from_ftype := ((from_attr.map (fun a => a.ftype))).getD ""
    let to_ftype := ((to_attr.map (fun a => a.ftype))).getD ""
    let priority_factor : ℚ :=
      if from_node_type == "facility" || to_node_type == "facility" then
        if from_node_type == "facility" &&
            (from_ftype == "Medical" || from_ftype == "Transit Hub") then
          1 / (facility_priority * (3/2))
        else if to_node_type == "facility" &&
            (to_ftype == "Medical" || to_ftype == "Transit Hub") then
          1 / (facility_priority * (3/2))
        else 1 / facility_priority
      else 1
    let avg_speed : ℚ := 60 * (1 - (11 - 8) / 5 * (1/2))
    let travel_time := road.distance / avg_speed * 60
    let modified_time := travel_time * population_factor * priority_factor
    (g.addEdge toDefaultNode road.fromID road.toID
      ⟨modified_time, travel_time, road.distance, road.capacity, 8, "potential", road.cost⟩,
     st.2 ++ [⟨modified_time, road.fromID, road.toID, road.distance, road.cost,
       population_served⟩])

/-- Union-find `find` without path compression (same roots as the source's
compressing version); fuel bounds the parent-chain length. -/
def ufFind (parent : List (NodeId × NodeId)) : Nat → NodeId → NodeId
  | 0, n => n
  | Nat.succ fuel, n =>
    match parent.find? (fun p => p.1 == n) with
    | some p => if p.2 == n then n else ufFind parent fuel p.2
    | none => n

/-- An MST edge `(u, v, data)`. -/
abbrev MstEdge := NodeId × NodeId × InfEdge

/-- The custom Kruskal of `create_mst_network` (lines 130-159): edges sorted
by `(weight, -population_served)` (stable), union by rank. -/
def kruskalMST (g : Graph TONode InfEdge) (edges : List KEdge) : List MstEdge :=
  let fuel := g.nodes.length + 1
  let sorted_edges := stableSortBy
    (fun a b => a.weight < b.weight ||
      (a.weight == b.weight && (-a.pop < -b.pop || -a.pop == -b.pop)))
    edges
  (sorted_edges.foldl
    (fun (st : List (NodeId × NodeId) × List (NodeId × ℚ) × List MstEdge) e =>
      let parent := st.1
      let rank := st.2.1
      let root1 := ufFind parent fuel e.u
      let root2 := ufFind parent fuel e.v
      if root1 == root2 then st
      else
        let r1 := ((rank.find? (fun p => p.1 == root1)).map (fun p => p.2)).getD 0
        let r2 := ((rank.find? (fun p => p.1 == root2)).map (fun p => p.2)).getD 0
        let parent2 :=
          if r1 < r2 then dictSet parent root1 root2
          else dictSet parent root2 root1
        let rank2 := if r1 < r2 || r1 > r2 then rank else dictSet rank root1 (r1 + 1)
        (parent2, rank2, st.2.2 ++ [(e.u, e.v, ((g.getEdge e.u e.v).getD
          ⟨0, 0, 0, 0, 0, "", 0⟩))]))
    (g.nodes.map (fun p => (p.1, p.1)), [], [])).2.2

/-- The main loop of the custom Prim (lines 180-189): pop the heap minimum
by `(weight, u, v)` lexicographic order (a full tie would make Python
compare attribute dicts and fail; the inputs used here have none), skip
visited targets, otherwise take the edge and push the target's fresh
neighbours. -/
def primLoop (g : Graph TONode InfEdge) :
    Nat → List (ℚ × NodeId × NodeId × InfEdge) → List NodeId → List MstEdge → List MstEdge
  | 0, _, _, mst => mst
  | Nat.succ fuel, heap, visited, mst =>
    if g.nodes.length ≤ visited.length then mst
    else
      match heap with
      | [] => mst
      | x :: xs =>
        let best := xs.foldl (fun b y =>
          if y.1 < b.1 || (y.1 == b.1 && (charListLt y.2.1.data b.2.1.data ||
              (y.2.1 == b.2.1 && charListLt y.2.2.1.data b.2.2.1.data))) then y else b) x
        let rest := (x :: xs).erase best
        let v := best.2.2.1
        if visited.contains v then primLoop g fuel rest visited mst
        else
          let visited2 := visited ++ [v]
          let mst2 := mst ++ [(best.2.1, v, best.2.2.2)]
          let heap2 := (g.neighborsOf v).foldl
            (fun h w =>
              if visited2.contains w then h
              else
                match g.getEdge v w with
                | some d => h ++ [(d.weight, v, w, d)]
                | none => h)
            rest
          primLoop g fuel heap2 visited2 mst2

/-- The custom Prim of `create_mst_network` (lines 162-191): start from the
first Medical/Transit-Hub facility (else the first node).  `none` models
the `IndexError` on an empty graph. -/
def primMST (g : Graph TONode InfEdge) : Option (List MstEdge) :=
  let start0 := (g.nodes.find? (fun p =>
    p.2.node_type == "facility" && (p.2.ftype == "Medical" || p.2.ftype == "Transit Hub"))).map
    (fun p => p.1)
  match start0, g.nodes with
  | none, [] => none
  | _, _ =>
    let start_node := match start0 with
      | some s => s
      | none => (g.nodes.headD ("", toDefaultNode)).1
    let heap0 := (g.neighborsOf start_node).foldl
      (fun h v =>
        match g.getEdge start_node v with
        | some d => h ++ [(d.weight, start_node, v, d)]
        | none => h)
      []
    let fuel := (g.edges.length + g.nodes.length + 1) * (g.nodes.length + 1)
    some (primLoop g fuel heap0 [start_node] [])

/-- The sort key of the budget greedy (line 201):
`cost / (population(u) + population(v) + 1)` for positive-cost edges and
`float('inf')` otherwise, so zero-cost (existing) edges sort last.  The
`le` encodes Python float comparison with infinity. -/
def budgetKeyLe (g : Graph TONode InfEdge) (a b : MstEdge) : Bool :=
  let key := fun (e : MstEdge) => (e.2.2.cost > 0,
    e.2.2.cost / (popOf g e.1 + popOf g e.2.1 + 1))
  let ka := key a
  let kb := key b
  if ka.1 then (!kb.1 || ka.2 ≤ kb.2) else !kb.1

/-- One admission decision of the budget greedy (lines 202-207): a
`potential` edge is admitted into the graph iff the budget after adding
its cost stays within the cap (always, if no cap). -/
def budgetStep (max_budget : Option ℚ)
    (st : Graph TONode InfEdge × List (NodeId × NodeId × ℚ) × ℚ) (e : MstEdge) :
    Graph TONode InfEdge × List (NodeId × NodeId × ℚ) × ℚ :=
  let budget_used := st.2.2
  if e.2.2.road_type == "potential" &&
      (match max_budget with
       | none => true
       | some b => decide (budget_used + e.2.2.cost ≤ b)) then
    (st.1.addEdge toDefaultNode e.1 e.2.1 e.2.2,
     st.2.1 ++ [(e.1, e.2.1, e.2.2.cost)], budget_used + e.2.2.cost)
  else st

/-- The budget greedy of `create_mst_network` (lines 199-207): MST edges
sorted by `budgetKeyLe`, then admitted one by one by `budgetStep`.
Returns the updated graph, the admitted `(u, v, cost)` list in admission
order, and the budget used. -/
def addPotentialWithinBudget (gpot : Graph TONode InfEdge) (mst_edges : List MstEdge)
    (max_budget : Option ℚ) (G : Graph TONode InfEdge) :
    Graph TONode InfEdge × List (NodeId × NodeId × ℚ) × ℚ :=
  (stableSortBy (budgetKeyLe gpot) mst_edges).foldl (budgetStep max_budget) (G, [], 0)

/-- Breadth-first worker for `connectedComponent`. -/
def connectedComponentGo {ν ε : Type} (g : Graph ν ε) :
    Nat → List NodeId → List NodeId → List NodeId
  | 0, _, acc => acc
  | Nat.succ _, [], acc => acc
  | Nat.succ fuel, n :: queue, acc =>
    if acc.contains n then connectedComponentGo g fuel queue acc
    else
      let acc2 := acc ++ [n]
      let fresh := (g.neighborsOf n).filter (fun m => !acc2.contains m && !queue.contains m)
      connectedComponentGo g fuel (queue ++ fresh) acc2

/-- Connected component of `start` (model of
`networkx.node_connected_component`), as a list in breadth-first order from
`start`.  Only membership is read by `create_mst_network`; the source
iterates the component as a Python set, whose order is unspecified, so the
embedding fixes this deterministic order (the concrete inputs below make
every outcome independent of it). -/
def connectedComponent {ν ε : Type} (g : Graph ν ε) (start : NodeId) : List NodeId :=
  connectedComponentGo g ((g.nodes.length + 1) * (2 * g.edges.length + 2)) [start] []

/-- One step of the connectivity completion (lines 215-244): the missing
neighbourhood is joined to its geometrically nearest connected node by a
synthetic candidate road (`cost = euclidean * 100 * 20`), admitted only if
the budget cap allows; `sqrtFn` models the euclidean distance's square
root.  State: `(G, connected, new_roads, budget_used)`. -/
def connectStep (sqrtFn : ℚ → ℚ) (max_budget : Option ℚ)
    (st : Graph TONode InfEdge × List NodeId × List (NodeId × NodeId × ℚ) × ℚ)
    (node : NodeId) :
    Graph TONode InfEdge × List NodeId × List (NodeId × NodeId × ℚ) × ℚ :=
  let G := st.1
  let connected := st.2.1
  let pos1 := ((G.nodeAttr node).map (fun a => a.pos)).getD (0, 0)
  let best := connected.foldl
    (fun (b : Option (ℚ × NodeId)) connected_node =>
      let pos2 := ((G.nodeAttr connected_node).map (fun a => a.pos)).getD (0, 0)
      let dist := sqrtFn ((pos1.1 - pos2.1) * (pos1.1 - pos2.1) +
        (pos1.2 - pos2.2) * (pos1.2 - pos2.2)) * 100
      let est_cost := dist * 20
      match b with
      | none => some (est_cost, connected_node)
      | some bc => if est_cost < bc.1 then some (est_cost, connected_node) else b)
    none
  match best with
  | none => st
  | some (min_cost, best_node) =>
    if (match max_budget with
        | none => true
        | some b => decide (st.2.2.2 + min_cost ≤ b)) then
      let travel_time := min_cost / 20 / 48 * 60
      (st.1.addEdge toDefaultNode node best_node
        ⟨travel_time, travel_time, min_cost / 20, 3000, 8, "potential", min_cost⟩,
       connected ++ [node], st.2.2.1 ++ [(node, best_node, min_cost)], st.2.2.2 + min_cost)
    else st

/-- The connectivity completion of `create_mst_network` (lines 209-244):
every neighbourhood left outside the first neighbourhood's component is
processed by `connectStep`. -/
def ensureNeighborhoodConnectivity (sqrtFn : ℚ → ℚ) (missing : List NodeId)
    (connected0 : List NodeId) (max_budget : Option ℚ) (budget_used0 : ℚ)
    (G0 : Graph TONode InfEdge) (roads0 : List (NodeId × NodeId × ℚ)) :
    Graph TONode InfEdge × List NodeId × List (NodeId × NodeId × ℚ) × ℚ :=
  missing.foldl (connectStep sqrtFn max_budget) (G0, connected0, roads0, budget_used0)

/-- Unweighted clustering coefficient of one node (model of
`networkx.average_clustering`'s per-node value). -/
def clusteringCoeff {ν ε : Type} (g : Graph ν ε) (u : NodeId) : ℚ :=
  let ns := (g.neighborsOf u).dedup.filter (fun m => m ≠ u)
  let k := ns.length
  if k < 2 then 0
  else
    let links := (ns.foldl
      (fun (st : Nat × List NodeId) v =>
        ((st.2.filter (fun w => g.hasEdge v w)).length + st.1, st.2 ++ [v]))
      (0, [])).1
    (2 * links : ℚ) / ((k : ℚ) * ((k : ℚ) - 1))

/-- Model of `networkx.average_clustering`: mean clustering coefficient
over all nodes. -/
def averageClustering {ν ε : Type} (g : Graph ν ε) : ℚ :=
  if g.nodes.length = 0 then 0
  else (g.nodes.foldl (fun s p => s + clusteringCoeff g p.1) 0) / (g.nodes.length : ℚ)

/-- The `cost_analysis` dict of `create_mst_network`. -/
structure CostAnalysis where
  existing_roads_cost : ℚ
  new_roads_cost : ℚ
  total_cost : ℚ
  cost_per_km : ℚ
  cost_effectiveness : ℚ
deriving Repr, DecidableEq

/-- Result tuple of `create_mst_network`. -/
structure MstResult where
  G : Graph TONode InfEdge
  total_time_cost : ℚ
  new_roads_added : List (NodeId × NodeId × ℚ)
  total_distance : ℚ
  connectivity_score : ℚ
  cost_analysis : CostAnalysis
deriving Repr, DecidableEq

/-- Embedding of `create_mst_network` (src/infrastructure.py, lines 7-258).
`sqrtFn` models the euclidean distance raised by the connectivity
completion; `potential_roads = none` models Python's `None`.
`Except.error .indexError` models the uncaught `IndexError` of
`list(neighborhoods_ids)[0]` on an empty neighbourhood table (and of Prim
on an empty graph).  The first neighbourhood id in table order stands in
for Python's unspecified `list(set)[0]` choice, and the set difference
`missing_nodes` is traversed in table order; the concrete inputs used in
theorems make every outcome independent of these orders. -/
def create_mst_network (sqrtFn : ℚ → ℚ) (nbs : List NbRow) (fac : List FacRow)
    (roads : List RoadRow) (potential_roads : Option (List PotRoadRow))
    (algorithm_choice : String) (population_weight facility_priority : ℚ)
    (max_budget : Option ℚ) : Except PyErr MstResult :=
  let G := buildInfBase nbs fac roads
  let afterPotential :
      Except PyErr (Graph TONode InfEdge × List (NodeId × NodeId × ℚ) × ℚ) :=
    match potential_roads with
    | none => Except.ok (G, [], 0)
    | some pots =>
      let st := pots.foldl (addPotentialRoad population_weight facility_priority) (G, [])
      let gpot := st.1
      let edges := st.2
      let mst_edges? : Except PyErr (List MstEdge) :=
        if algorithm_choice == "kruskal" then Except.ok (kruskalMST gpot edges)
        else
          match primMST gpot with
          | some m => Except.ok m
          | none => Except.error PyErr.indexError
      match mst_edges? with
      | Except.error e => Except.error e
      | Except.ok mst_edges =>
        Except.ok (addPotentialWithinBudget gpot mst_edges max_budget G)
  match afterPotential with
  | Except.error e => Except.error e
  | Except.ok (G1, new_roads1, budget_used1) =>
    let neighborhoods_ids := (nbs.map (fun r => r.id)).dedup
    match neighborhoods_ids with
    | [] => Except.error PyErr.indexError
    | first :: _ =>
      let connected_nodes := connectedComponent G1 first
      let missing_nodes := neighborhoods_ids.filter (fun n => !connected_nodes.contains n)
      let fin := ensureNeighborhoodConnectivity sqrtFn missing_nodes connected_nodes
        max_budget budget_used1 G1 new_roads1
      let G2 := fin.1
      let new_roads := fin.2.2.1
      let new_cost := (fin.2.2.1.foldl (fun s r => s + r.2.2) 0)
      let total_time_cost := G2.edges.foldl (fun s e => s + e.2.2.time_cost) 0
      let total_distance := G2.edges.foldl (fun s e => s + e.2.2.distance) 0
      let connectivity_score :=
        if G2.nodes.length > 2 then averageClustering G2 * 100 else 0
      let total_population_served := G2.nodes.foldl
        (fun s p => if p.2.node_type == "neighborhood" then s + p.2.population else s) 0
      let cost_analysis : CostAnalysis :=
        ⟨0, new_cost, new_cost,
         if total_distance > 0 then new_cost / total_distance else 0,
         if new_cost > 0 then total_population_served / new_cost else 0⟩
      Except.ok ⟨G2, total_time_cost, new_roads, total_distance, connectivity_score,
        cost_analysis⟩

/-! ## src/public_transit.py -/

/-- A row of the metro-lines dataframe; `stations` is the already-split
station list (`row['Stations(comma-separated IDs)'].strip('"').split(',')`,
which is never empty: splitting the empty string yields `[""]`). -/
structure MetroRow where
  lineID : String
  stations : List NodeId
  dailyPassengers : ℚ
deriving Repr, DecidableEq

/-- A row of the bus-routes dataframe (`stops` pre-split as for metro). -/
structure BusRow where
  routeID : String
  stops : List NodeId
  dailyPassengers : ℚ
  busesAssigned : ℤ
deriving Repr, DecidableEq

/-- A row of the transit-demand dataframe. -/
structure DemandRow where
  fromID : NodeId
  toID : NodeId
  passengers : ℚ
deriving Repr, DecidableEq

/-- Edge attributes of `optimize_public_transit`'s road graph. -/
structure PTEdge where
  distance : ℚ
  capacity : ℚ
  condition : ℚ
deriving Repr, DecidableEq

/-- Graph construction of `optimize_public_transit` (lines 29-55). -/
def buildPTGraph (nbs : List NbRow) (fac : List FacRow) (roads : List RoadRow) :
    Graph TONode PTEdge :=
  let g0 : Graph TONode PTEdge := Graph.empty
  let g1 := nbs.foldl
    (fun g r => g.addNode r.id ⟨r.name, "neighborhood", r.population, "", (r.x, r.y)⟩) g0
  let g2 := fac.foldl
    (fun g r => g.addNode r.id ⟨r.name, "facility", 0, r.ftype, (r.x, r.y)⟩) g1
  roads.foldl (fun g road =>
    g.addEdge toDefaultNode road.fromID road.toID
      ⟨road.distance, road.capacity, road.condition⟩) g2

/-- The demand matrix lookup `demand_matrix[a][b]`: a `defaultdict` filled
by assignment, so the last row for a pair wins and missing pairs are 0. -/
def demandAt (demand : List DemandRow) (a b : NodeId) : ℚ :=
  (((demand.filter (fun r => r.fromID == a && r.toID == b)).getLast?).map
    (fun r => r.passengers)).getD 0

/-- The distinct `(FromID, ToID)` pairs of the demand table, used to sum a
`defaultdict` without double counting overwritten duplicates. -/
def demandPairs (demand : List DemandRow) : List (NodeId × NodeId) :=
  (demand.map (fun r => (r.fromID, r.toID))).dedup

/-- `node_demands[node]` of `optimize_route_dp` (lines 151-153): demand out
of plus demand into the node.  (The Python comprehension also inserts
empty `defaultdict` entries while summing; those contribute 0.) -/
def nodeDemand (demand : List DemandRow) (node : NodeId) : ℚ :=
  (demandPairs demand).foldl
    (fun s p =>
      (if p.1 == node then s + demandAt demand p.1 p.2 else s) +
      (if p.2 == node then demandAt demand p.1 p.2 else 0))
    0

/-- Demand served by a stop sequence (lines 91-104): for every index pair
`i < j`, both directions of demand between the stops (the memo cache is
value-neutral and omitted). -/
def routeDemand (demand : List DemandRow) (route : List NodeId) : ℚ :=
  (List.range route.length).foldl
    (fun s i =>
      (List.range' (i + 1) (route.length - (i + 1))).foldl
        (fun s2 j =>
          let a := route.getD i ""
          let b := route.getD j ""
          s2 + demandAt demand a b + demandAt demand b a)
        s)
    0

/-- Distance of a stop sequence (lines 106-131): shortest-path distance
between consecutive stops, 100 for a connected-but-pathless pair, and an
uncaught `NodeNotFound` (only `NetworkXNoPath` is handled) when a stop is
not a node of the road graph. -/
def routeDistance (g : Graph TONode PTEdge) (route : List NodeId) : Except PyErr ℚ :=
  (List.range (route.length - 1)).foldl
    (fun acc i =>
      match acc with
      | Except.error e => Except.error e
      | Except.ok s =>
        let a := route.getD i ""
        let b := route.getD (i + 1) ""
        if g.hasNode a && g.hasNode b then
          match g.shortestPath (fun e => e.distance) a b with
          | some p => Except.ok (s + g.pathWeight (fun e => e.distance) p)
          | none => Except.ok (s + 100)
        else Except.error PyErr.nodeNotFound)
    (Except.ok 0)

/-- `calculate_route_performance` (lines 83-144): demand, distance and the
resource estimate (buses `max(5, int(dist/5) + int(demand/10000))`, trains
`max(3, int(dist/10) + int(demand/20000))`). -/
def calculate_route_performance (g : Graph TONode PTEdge) (demand : List DemandRow)
    (route_is_bus : Bool) (route : List NodeId) : Except PyErr (ℚ × ℚ × ℤ) :=
  let total_demand := routeDemand demand route
  match routeDistance g route with
  | Except.error e => Except.error e
  | Except.ok total_distance =>
    let resources :=
      if route_is_bus then
        intMax 5 (ratTrunc (total_distance / 5) + ratTrunc (total_demand / 10000))
      else
        intMax 3 (ratTrunc (total_distance / 10) + ratTrunc (total_demand / 20000))
    Except.ok (total_demand, total_distance, resources)

/-- The `dp` recursion of `optimize_route_dp` (lines 158-191), structural
on `remaining_stops`.  The `last_added` argument of the source is never
read (it only widens the memo key), so it is omitted; the memoisation is
value-neutral.  The bare `except` of the Travel Time branch maps any
failed shortest-path call (missing node or no path) to `-100`. -/
def pt_dp (g : Graph TONode PTEdge) (demand : List DemandRow) (optimize_for : String)
    (all_nodes : List NodeId) : Nat → NodeId → ℚ × List NodeId
  | 0, _ => (0, [])
  | Nat.succ remaining, current_pos =>
    all_nodes.foldl
      (fun best next_pos =>
        if next_pos == current_pos then best
        else
          let value : ℚ :=
            if optimize_for == "Passenger Capacity" then nodeDemand demand next_pos
            else if optimize_for == "Travel Time" then
              if g.hasNode current_pos && g.hasNode next_pos then
                match g.shortestPath (fun e => e.distance) current_pos next_pos with
                | some p => -(g.pathWeight (fun e => e.distance) p)
                | none => -100
              else -100
            else -1
          let sub := pt_dp g demand optimize_for all_nodes remaining next_pos
          let total_value := value + sub.1
          if total_value > best.1 then (total_value, next_pos :: sub.2) else best)
      (-1, [])

/-- `optimize_route_dp` (lines 147-203): best over the current route's
possible starting stops of the `dp` completion. -/
def optimize_route_dp (g : Graph TONode PTEdge) (demand : List DemandRow)
    (optimize_for : String) (current_route : List NodeId) : List NodeId :=
  let all_nodes := g.nodes.map (fun p => p.1)
  (current_route.foldl
    (fun (best : ℚ × List NodeId) start_node =>
      let r := pt_dp g demand optimize_for all_nodes current_route.length start_node
      if r.1 > best.1 then (r.1, start_node :: r.2) else best)
    (-1, [])).2

/-- Performance dicts returned by `optimize_public_transit` (`none` fields
model absent keys). -/
structure PTPerf where
  passengers : Option ℚ
  distance : Option ℚ
  resources : Option ℤ
deriving Repr, DecidableEq

/-- The `suggested_changes` messages, carried structurally. -/
inductive Suggestion where
  | addStops (stops : List NodeId)
  | removeStops (stops : List NodeId)
  | travelTimeReduction (saved : ℚ)
  | alreadyOptimal
  | reduceFleet (fromN toN : ℤ)
  | increaseFleet (fromN toN : ℤ)
  | fleetOptimal
  | recommendTrains (n : ℤ)
deriving Repr, DecidableEq

/-- Result tuple of `optimize_public_transit`. -/
structure OPTResult where
  optimized_route : Option (List NodeId)
  current_performance : PTPerf
  optimized_performance : PTPerf
  suggested_changes : List Suggestion
deriving Repr, DecidableEq

/-- Embedding of `optimize_public_transit` (src/public_transit.py, lines
8-265).  `Except.error .indexError` models the uncaught `IndexError` of
`.iloc[0]` when `route_id` matches no row of the requested table (lines
60/64), and `Except.error .nodeNotFound` the uncaught `NodeNotFound` of the
current-route evaluation at line 206; the broad `try` around the
optimisation itself (lines 213-242) never fires in the model because the
optimised route only visits graph nodes.  Set-difference orders
(`added_stops`, `removed_stops`) are modelled as first-appearance order. -/
def optimize_public_transit (nbs : List NbRow) (fac : List FacRow) (roads : List RoadRow)
    (metro_lines : List MetroRow) (bus_routes : List BusRow) (transit_demand : List DemandRow)
    (route_id : String) (route_type : String) (optimize_for : String) :
    Except PyErr OPTResult :=
  let g := buildPTGraph nbs fac roads
  let is_bus := !(route_type == "metro")
  let row? : Except PyErr (List NodeId × ℚ × ℤ) :=
    if route_type == "metro" then
      match metro_lines.find? (fun r => r.lineID == route_id) with
      | some r => Except.ok (r.stations, r.dailyPassengers, 0)
      | none => Except.error PyErr.indexError
    else
      match bus_routes.find? (fun r => r.routeID == route_id) with
      | some r => Except.ok (r.stops, r.dailyPassengers, r.busesAssigned)
      | none => Except.error PyErr.indexError
  match row? with
  | Except.error e => Except.error e
  | Except.ok (current_route, daily_passengers, buses_assigned) =>
    let current_performance : PTPerf :=
      ⟨some daily_passengers, none, if is_bus then some buses_assigned else none⟩
    match calculate_route_performance g transit_demand is_bus current_route with
    | Except.error e => Except.error e
    | Except.ok (_, current_distance, _) =>
      let optimized_route := optimize_route_dp g transit_demand optimize_for current_route
      match calculate_route_performance g transit_demand is_bus optimized_route with
      | Except.error e => Except.error e
      | Except.ok (opt_demand, opt_distance, opt_resources) =>
        let optimized_performance : PTPerf :=
          ⟨some opt_demand, some opt_distance, if is_bus then some opt_resources else none⟩
        let added_stops := (optimized_route.dedup).filter (fun s => s ∉ current_route)
        let removed_stops := (current_route.dedup).filter (fun s => s ∉ optimized_route)
        let s1 := if added_stops ≠ [] then [Suggestion.addStops added_stops] else []
        let s2 := if removed_stops ≠ [] then [Suggestion.removeStops removed_stops] else []
        let s3 :=
          if optimize_for == "Travel Time" && decide (current_distance - opt_distance > 0) then
            [Suggestion.travelTimeReduction (current_distance - opt_distance)]
          else []
        let s4 := if added_stops = [] ∧ removed_stops = [] then [Suggestion.alreadyOptimal]
          else []
        let base := s1 ++ s2 ++ s3 ++ s4
        if optimize_for == "Resource Efficiency" && !optimized_route.isEmpty then
          if is_bus then
            let optimal_buses := intMax 5 (ratTrunc (opt_distance / 4) +
              ratTrunc (opt_demand / 2000))
            let s5 :=
              if optimal_buses < buses_assigned then
                [Suggestion.reduceFleet buses_assigned optimal_buses]
              else if optimal_buses > buses_assigned then
                [Suggestion.increaseFleet buses_assigned optimal_buses]
              else [Suggestion.fleetOptimal]
            Except.ok ⟨some optimized_route, current_performance,
              { optimized_performance with resources := some optimal_buses }, base ++ s5⟩
          else
            let optimal_trains := intMax 3 (ratTrunc (opt_distance / 10) +
              ratTrunc (opt_demand / 25000))
            Except.ok ⟨some optimized_route, current_performance,
              { optimized_performance with resources := some optimal_trains },
              base ++ [Suggestion.recommendTrains optimal_trains]⟩
        else
          Except.ok ⟨some optimized_route, current_performance, optimized_performance, base⟩

/-- Python's `min` on two integers. -/
def intMin (a b : ℤ) : ℤ :=
  if a ≤ b then a else b

/-- Python's `range(lo, hi + 1)` over integers. -/
def intRange (lo hi : ℤ) : List ℤ :=
  (List.range (hi + 1 - lo).toNat).map (fun i : ℕ => lo + (i : ℤ))

/-- One hourly slot of the schedule optimiser, with its demand and peak
flag as computed by `optimize_schedule_dp` upstream of the DP (lines
304-331: demand scaled by the time-of-day factor, divided by 24; peak
determined by substring matching against the peak-hour labels). -/
structure SlotInfo where
  period : String
  demand : ℚ
  isPeak : Bool
deriving Repr, DecidableEq

/-- One row of an optimised schedule. -/
structure SchedEntry where
  period : String
  headway : ℤ
  resources : ℤ
  capacity : ℤ
  peak : Bool
deriving Repr, DecidableEq

/-- Comparison against a possibly-infinite best cost (`none` models
`float('inf')`). -/
def costLt (a b : Option ℚ) : Bool :=
  match a, b with
  | none, _ => false
  | some _, none => true
  | some x, some y => decide (x < y)

/-- The 19 fixed hourly time slots of `optimize_schedule_dp` (lines
284-288). -/
def timePeriods : List String :=
  ["5-6 AM", "6-7 AM", "7-8 AM", "8-9 AM", "9-10 AM", "10-11 AM", "11-12 PM",
   "12-1 PM", "1-2 PM", "2-3 PM", "3-4 PM", "4-5 PM", "5-6 PM", "6-7 PM",
   "7-8 PM", "8-9 PM", "9-10 PM", "10-11 PM", "11-12 AM"]

/-- Embedding of the `dp_schedule` recursion of `optimize_schedule_dp`
(src/public_transit.py, lines 354-400), structural on the remaining slots;
the captured environment (base headway/capacity/resources, the availability
cap, the per-slot demand and peak flags) is passed explicitly.  The
`remaining_resources` state component is threaded exactly as in the source:
the recursive call receives `available_resources - resources`, but the body
never reads its own `remaining_resources` argument — feasibility is checked
against the global `available_resources` each time (so the parameter does
not constrain anything; the `lru_cache` memoisation is value-neutral). -/
def dp_schedule (route_is_metro : Bool) (base_headway base_capacity : ℚ)
    (base_resources available_resources : ℤ) :
    List SlotInfo → ℤ → Option ℚ × List SchedEntry
  | [], _ => (some 0, [])
  | slot :: rest, _remaining_resources =>
    let min_resources : ℤ := if route_is_metro then 2 else 1
    let max_resources := intMin available_resources
      (if slot.isPeak then base_resources else ratTrunc ((base_resources : ℚ) * (8/10)))
    (intRange min_resources max_resources).foldl
      (fun (best : Option ℚ × List SchedEntry) (resources : ℤ) =>
        let headway := intMax 3 (ratTrunc (base_headway * (base_resources : ℚ) /
          (resources : ℚ)))
        let capacity : ℚ := (resources : ℚ) * base_capacity * 60 / (headway : ℚ)
        let wait_cost := (headway : ℚ) / 2 * slot.demand
        let cost :=
          if capacity < slot.demand then wait_cost + (slot.demand - capacity) * 10
          else wait_cost
        let remaining := available_resources - resources
        if remaining < 0 then best
        else
          let sub := dp_schedule route_is_metro base_headway base_capacity base_resources
            available_resources rest remaining
          let total_cost := sub.1.map (fun c => cost + c)
          if costLt total_cost best.1 then
            (total_cost,
             (⟨slot.period, headway, resources, ratTrunc capacity, slot.isPeak⟩ : SchedEntry)
               :: sub.2)
          else best)
      (none, [])

/-- The same recursion with the slot's continuation computed once; equal to
`dp_schedule` because the recursive call's `remaining_resources` argument
is never read (proved below). -/
def dpScheduleFast (route_is_metro : Bool) (base_headway base_capacity : ℚ)
    (base_resources available_resources : ℤ) :
    List SlotInfo → Option ℚ × List SchedEntry
  | [] => (some 0, [])
  | slot :: rest =>
    let sub := dpScheduleFast route_is_metro base_headway base_capacity base_resources
      available_resources rest
    let min_resources : ℤ := if route_is_metro then 2 else 1
    let max_resources := intMin available_resources
      (if slot.isPeak then base_resources else ratTrunc ((base_resources : ℚ) * (8/10)))
    (intRange min_resources max_resources).foldl
      (fun (best : Option ℚ × List SchedEntry) (resources : ℤ) =>
        let headway := intMax 3 (ratTrunc (base_headway * (base_resources : ℚ) /
          (resources : ℚ)))
        let capacity : ℚ := (resources : ℚ) * base_capacity * 60 / (headway : ℚ)
        let wait_cost := (headway : ℚ) / 2 * slot.demand
        let cost :=
          if capacity < slot.demand then wait_cost + (slot.demand - capacity) * 10
          else wait_cost
        let remaining := available_resources - resources
        if remaining < 0 then best
        else
          let total_cost := sub.1.map (fun c => cost + c)
          if costLt total_cost best.1 then
            (total_cost,
             (⟨slot.period, headway, resources, ratTrunc capacity, slot.isPeak⟩ : SchedEntry)
               :: sub.2)
          else best)
      (none, [])

/-! ### design_integrated_network -/

/-- Claim C5's description of the budget greedy, written from the claim's
words: candidate (potential) MST edges sorted by cost-per-km ascending with
zero-cost edges first, then kept iff the cumulative committed budget after
adding the edge does not exceed the cap (every candidate kept without a
cap).  Returns the kept `(u, v, cost)` list. -/
def claimC5Kept (mst_edges : List MstEdge) (max_budget : Option ℚ) :
    List (NodeId × NodeId × ℚ) :=
  let candidates := mst_edges.filter (fun e => e.2.2.road_type == "potential")
  let sorted := stableSortBy
    (fun a b =>
      if a.2.2.cost = 0 then true
      else if b.2.2.cost = 0 then false
      else decide (a.2.2.cost / a.2.2.distance ≤ b.2.2.cost / b.2.2.distance))
    candidates
  (sorted.foldl
    (fun (st : List (NodeId × NodeId × ℚ) × ℚ) e =>
      if (match max_budget with
          | none => true
          | some b => decide (st.2 + e.2.2.cost ≤ b)) then
        (st.1 ++ [(e.1, e.2.1, e.2.2.cost)], st.2 + e.2.2.cost)
      else st)
    ([], 0)).1

/-- The amended description of the budget greedy, written from the amended
claim's words as a standalone recursion: MST edges in the source's order —
stable-sorted by `cost / (population(u) + population(v) + 1)` with
non-positive-cost edges last — and a `potential` edge kept iff the
cumulative committed budget after adding it does not exceed the cap. -/
def specBudgetGreedyGo (max_budget : Option ℚ) : List MstEdge → ℚ → List MstEdge
  | [], _ => []
  | e :: rest, spent =>
    if e.2.2.road_type == "potential" &&
        (match max_budget with
         | none => true
         | some b => decide (spent + e.2.2.cost ≤ b)) then
      e :: specBudgetGreedyGo max_budget rest (spent + e.2.2.cost)
    else specBudgetGreedyGo max_budget rest spent

/-- The kept candidate edges under the amended description. -/
def specBudgetGreedy (gpot : Graph TONode InfEdge) (mst_edges : List MstEdge)
    (max_budget : Option ℚ) : List MstEdge :=
  specBudgetGreedyGo max_budget (stableSortBy (budgetKeyLe gpot) mst_edges) 0

/-! ## Spec-side definitions for the preemption claim -/

/-- The amended claim's incoming-volume lookup: the first traffic row for
the directed pair `(prev, node)`, defaulting to 1000 when none exists. -/
def lookupIncomingVolume (traffic : List TrafficRow) (prev node : NodeId) : ℚ :=
  match traffic.find? (fun r => r.fromID == prev && r.toID == node) with
  | some r => r.volume
  | none => 1000

/-- The amended claim's per-index preemption outcome: a known intersection
with a known plan is marked effective iff the looked-up incoming volume is
at least 1000 (so a missing measurement, defaulting to 1000, counts as
congested), with time saved equal to half the cycle time; otherwise it is
ineffective with reason "Low traffic volume" and zero time saved; other
interior nodes produce no entry. -/
def specPreemptEntryAt (intersections : List NodeId) (signals : List (NodeId × ℚ))
    (traffic : List TrafficRow) (path : List NodeId) (i : Nat) :
    Option (NodeId × PreemptEntry) :=
  let node := path.getD i ""
  if node ∈ intersections ∧ signals.any (fun p => p.1 == node) then
    let cycle_time := ((signals.find? (fun p => p.1 == node)).map (fun p => p.2)).getD 60
    let prev := path.getD (i - 1) ""
    let incoming_road := prev ++ "-" ++ node
    if lookupIncomingVolume traffic prev node ≥ 1000 then
      some (node, ⟨incoming_road, cycle_time / 2, 15, 2,
        ["Detect emergency vehicle on road " ++ incoming_road,
         "Set green light for " ++ incoming_road ++ " (15s)",
         "Pause conflicting directions (red)",
         "Transition back to normal timing after 2s"], true, true, none⟩)
    else
      some (node, ⟨incoming_road, 0, 0, 0, [], true, false, some "Low traffic volume"⟩)
  else none

/-- The qualifying node name produced at one index, if any. -/
def preemptNameAt (inters : List NodeId) (signals : List (NodeId × ℚ))
    (traffic : List TrafficRow) (path : List NodeId) (i : Nat) : Option NodeId :=
  (specPreemptEntryAt inters signals traffic path i).map Prod.fst

/-- Two locations, 3-4-5 offsets so the heuristic's square root is exact. -/
def nbsER : List NbRow := [⟨"A", "A", 0, 0, 0⟩, ⟨"B", "B", 0, 3/100, 1/25⟩]

/-- One 10 km road in perfect condition. -/
def roadsER : List RoadRow := [⟨"A", "B", 10, 1000, 10⟩]

/-- Volume equal to capacity: congestion ratio 1. -/
def trafficER : List TrafficRow := [⟨"A", "B", 1000⟩]

/-- The exact square root of every value `math.sqrt` receives on the
`nbsER` network (`1/400` from the A-B offsets and `0` for a node's distance
to itself). -/
def sqrtER : ℚ → ℚ := fun q => if q = 1/400 then 1/20 else 0

/-- Three neighbourhoods; only the first is populated, so the code's
cost-per-population order and the claim's cost-per-km order disagree. -/
def nbsC5 : List NbRow := [⟨"N1", "N1", 9, 0, 0⟩, ⟨"N2", "N2", 0, 3, 4⟩, ⟨"N3", "N3", 0, 6, 8⟩]

/-- Two candidate roads: 20 M over 1 km (cost-per-km 20, cost-per-person 2)
and 10 M over 2 km (cost-per-km 5, cost-per-person 10). -/
def potsC5 : List PotRoadRow := [⟨"N1", "N2", 1, 3000, 20⟩, ⟨"N2", "N3", 2, 3000, 10⟩]

/-- The exact square root of every squared distance arising between the
`nbsC5` coordinates. -/
def sqrtC5 : ℚ → ℚ := fun q => if q = 100 then 10 else if q = 25 then 5 else 0

/-- The 19 schedule slots with a constant demand of 24 and peak flags set,
under which the DP picks 3 vehicles and the truncated headway 13. -/
def slotsC9 : List SlotInfo := timePeriods.map (fun p => ⟨p, 24, true⟩)

/-- The weighted union graph over `nbsC5` and `potsC5`. -/
def gpotC5 : Graph TONode InfEdge :=
  (potsC5.foldl (addPotentialRoad (1/2) (3/2)) (buildInfBase nbsC5 [] [], [])).1

/-- The Kruskal edge tuples over `nbsC5` and `potsC5`. -/
def kedgesC5 : List KEdge :=
  (potsC5.foldl (addPotentialRoad (1/2) (3/2)) (buildInfBase nbsC5 [] [], [])).2

/-- Claim C2 (code bug): the source comments at
src/emergency_response.py lines 113 and 173 state that a lower (more
urgent) priority level always results in more time saved, but the factors
`max(0.2, 1 - 0.3 * p)` and `max(0.1, 0.7 - 0.2 * p)` grow as `p` falls,
so on a fixed two-node network the most urgent level 1 saves strictly less
route time than the least urgent level 5 — the claimed monotonicity fails
deterministically, not through route choice. -/
theorem C2_priority_inversion :
    (plan_emergency_routes sqrtER nbsER [] roadsER trafficER "A" "B" 1 true []
      []).time_saved_route <
    (plan_emergency_routes sqrtER nbsER [] roadsER trafficER "A" "B" 5 true []
      []).time_saved_route := by
  decide

/-- Claim C3, counterexample: with an empty traffic table (no connected
road reports any volume, let alone one above threshold), the missing
directional measurement defaults to 1000, so the interior intersection is
marked `preemption_effective = True` with 30 s saved — not `False` with
reason "Low traffic volume" and zero saved as the claim's scenario
demands. -/
theorem C3_counterexample :
    (((preempt_intersection_signals ["X"] [("X", 60)] ["A", "X", "B"] []).1.find?
        (fun p => p.1 == "X")).map
      (fun p => (p.2.preemption_effective, p.2.time_saved, p.2.reason))) =
      some (true, 30, none) ∧
    (preempt_intersection_signals ["X"] [("X", 60)] ["A", "X", "B"] []).2 = 30 := by
  decide

/-- Claim C4, counterexample: on the five-node network the source's loop
searches a fresh copy of the graph each iteration (so iteration 1 restores
edge A-B and finds A-B-X-C), while the claim's accumulating-removal
process would search a graph missing both A-B and B-C and re-find only the
duplicate A-D-C; the produced alternative lists differ. -/
theorem C4_counterexample :
    (optimize_traffic_flow nbsAlt [] roadsAlt [] "A" "C" false (3/2) false 3 (3/10)).map
      (fun r => (r.optimal_path, r.alternative_paths)) =
      Except.ok (["A", "B", "C"], [["A", "D", "C"], ["A", "B", "X", "C"]]) ∧
    claimAltsAccumulating
      (buildTOGraph nbsAlt [] roadsAlt (buildTrafficDict []) false (3/2) false)
      "A" "C" ["A", "B", "C"] (pyEdgeSet ["A", "B", "C"]) (3/10) 3 = [["A", "D", "C"]] ∧
    ([["A", "D", "C"], ["A", "B", "X", "C"]] : List (List NodeId)) ≠ [["A", "D", "C"]] := by
  decide

/-- Claim C5, counterexample: the source sorts the MST candidates by
cost per unit of population served (zero-cost edges last), not by
cost-per-km (zero-cost first): with budget 20, the code admits the 20 M,
1 km road to the populated node N1 and rejects the 10 M, 2 km road, while
the claim's cost-per-km greedy would keep exactly the other road. -/
theorem C5_counterexample :
    (create_mst_network sqrtC5 nbsC5 [] [] (some potsC5) "kruskal" (1/2) (3/2)
      (some 20)).map (fun r => r.new_roads_added) = Except.ok [("N1", "N2", 20)] ∧
    claimC5Kept (kruskalMST gpotC5 kedgesC5) (some 20) = [("N2", "N3", 10)] ∧
    ([("N1", "N2", (20 : ℚ))] : List (NodeId × NodeId × ℚ)) ≠ [("N2", "N3", 10)] := by
  decide

/-- Claim C6, counterexample: `optimize_public_transit` on fully empty,
type-valid tables with a `route_id` absent from the metro table raises an
uncaught `IndexError` from `.iloc[0]` instead of degrading to a no-result
return. -/
theorem C6_counterexample :
    optimize_public_transit [] [] [] [] [] [] "M9" "metro" "Passenger Capacity" =
      Except.error PyErr.indexError := by
  decide

/-- The `remaining_resources` argument of `dp_schedule` is never read, so
the recursion equals the once-per-slot variant. -/
theorem dp_schedule_eq_fast (m : Bool) (bh bc : ℚ) (br av : ℤ) :
    ∀ (slots : List SlotInfo) (rem : ℤ),
      dp_schedule m bh bc br av slots rem = dpScheduleFast m bh bc br av slots := by
  intro slots
  induction slots with
  | nil => intro rem; rfl
  | cons s rest ih =>
    intro rem
    simp only [dp_schedule, dpScheduleFast]
    have h :
        (fun (best : Option ℚ × List SchedEntry) (resources : ℤ) =>
          let headway := intMax 3 (ratTrunc (bh * (br : ℚ) / (resources : ℚ)))
          let capacity : ℚ := (resources : ℚ) * bc * 60 / (headway : ℚ)
          let wait_cost := (headway : ℚ) / 2 * s.demand
          let cost :=
            if capacity < s.demand then wait_cost + (s.demand - capacity) * 10
            else wait_cost
          let remaining := av - resources
          if remaining < 0 then best
          else
            let sub := dp_schedule m bh bc br av rest remaining
            let total_cost := sub.1.map (fun c => cost + c)
            if costLt total_cost best.1 then
              (total_cost,
               (⟨s.period, headway, resources, ratTrunc capacity, s.isPeak⟩ : SchedEntry)
                 :: sub.2)
            else best) =
        (fun (best : Option ℚ × List SchedEntry) (resources : ℤ) =>
          let headway := intMax 3 (ratTrunc (bh * (br : ℚ) / (resources : ℚ)))
          let capacity : ℚ := (resources : ℚ) * bc * 60 / (headway : ℚ)
          let wait_cost := (headway : ℚ) / 2 * s.demand
          let cost :=
            if capacity < s.demand then wait_cost + (s.demand - capacity) * 10
            else wait_cost
          let remaining := av - resources
          if remaining < 0 then best
          else
            let sub := dpScheduleFast m bh bc br av rest
            let total_cost := sub.1.map (fun c => cost + c)
            if costLt total_cost best.1 then
              (total_cost,
               (⟨s.period, headway, resources, ratTrunc capacity, s.isPeak⟩ : SchedEntry)
                 :: sub.2)
            else best) := by
      funext best resources
      simp only [ih]
    rw [h]

set_option maxRecDepth 4000 in
/-- Claim C9, counterexample: at the 19-slot instance `slotsC9` (metro M1
parameters: base headway 5, base resources 8, 3 available) the DP picks 3
vehicles for the first slot and assigns headway 13 = `int(5*8/3)`, whereas
the claim's formula `max(3, base_headway * base_resources / resources)`
yields 40/3 — the claim omits the integer truncation. -/
theorem C9_counterexample :
    ((dp_schedule true 5 1500 8 3 slotsC9 3).2.head?.map
      (fun e => (e.headway, e.resources))) = some (13, 3) ∧
    ¬(((13 : ℤ) : ℚ) = ratMax 3 (5 * 8 / 3)) := by
  constructor
  · rw [dp_schedule_eq_fast]
    decide
  · decide

/-- Claim C10 (confirmed by the required witness input): on the two-node
network the only optimal-path edge is removed in iteration 0 and
disconnects the graph, so no alternative is accepted before iteration 1,
which removes nothing, re-finds the optimal path itself and accepts it
under the first-alternative rule — the returned alternatives list contains
a path identical to the optimal path. -/
theorem C10_optimal_among_alternatives :
    optimize_traffic_flow nbsTwo [] roadsTwo [] "A" "B" false (3/2) false 3 (3/10) =
      Except.ok ⟨["A", "B"], 1, 1, [["A", "B"]], [1], [1], none⟩ ∧
    (optimize_traffic_flow nbsTwo [] roadsTwo [] "A" "B" false (3/2) false 3 (3/10)).map
      (fun r => decide (r.optimal_path ∈ r.alternative_paths)) = Except.ok true := by
  constructor
  · decide
  · decide

/-- Claim C6, amended: `plan_emergency_routes` returns the all-empty tuple
as an explicit error value for an unknown origin or destination, and
`optimize_traffic_flow` returns an explicit error message for a
disconnected pair, but `optimize_public_transit` raises an uncaught
`IndexError` when the requested `route_id` is absent from the metro table
— not every malformed, type-valid input degrades to a no-result return. -/
theorem C6_error_values_amended :
    (∀ (nbs : List NbRow) (fac : List FacRow) (roads : List RoadRow)
        (metro : List MetroRow) (bus : List BusRow) (demand : List DemandRow)
        (rid opt : String),
      metro.find? (fun r => r.lineID == rid) = none →
      optimize_public_transit nbs fac roads metro bus demand rid "metro" opt =
        Except.error PyErr.indexError) ∧
    (∀ (sqrtFn : ℚ → ℚ) (nbs : List NbRow) (fac : List FacRow) (roads : List RoadRow)
        (traffic : List TrafficRow) (from_id to_id : NodeId) (p : ℚ) (rc : Bool)
        (inters : List NodeId) (sigs : List (NodeId × ℚ)),
      ((buildERGraph nbs fac roads (buildTrafficDict traffic) p).hasNode from_id &&
        (buildERGraph nbs fac roads (buildTrafficDict traffic) p).hasNode to_id) = false →
      plan_emergency_routes sqrtFn nbs fac roads traffic from_id to_id p rc inters sigs =
        ⟨[], [], 0, 0, 0, 0, [], 0⟩) ∧
    (∀ (nbs : List NbRow) (fac : List FacRow) (roads : List RoadRow)
        (traffic : List TrafficRow) (from_id to_id : NodeId) (ct : Bool) (cgf : ℚ)
        (crq : Bool) (ma : Nat) (dt : ℚ),
      ((buildTOGraph nbs fac roads (buildTrafficDict traffic) ct cgf crq).hasNode from_id &&
        (buildTOGraph nbs fac roads (buildTrafficDict traffic) ct cgf crq).hasNode to_id)
        = true →
      (buildTOGraph nbs fac roads (buildTrafficDict traffic) ct cgf crq).shortestPath
        (fun e => e.time) from_id to_id = none →
      optimize_traffic_flow nbs fac roads traffic from_id to_id ct cgf crq ma dt =
        Except.ok ⟨[], 0, 0, [], [], [],
          some "No path exists between the selected origin and destination."⟩) := by
  refine ⟨?_, ?_, ?_⟩
  · intro nbs fac roads metro bus demand rid opt h
    simp [optimize_public_transit, h]
  · intro sqrtFn nbs fac roads traffic from_id to_id p rc inters sigs h
    simp [plan_emergency_routes, h]
  · intro nbs fac roads traffic from_id to_id ct cgf crq ma dt h hp
    simp [optimize_traffic_flow, h, hp]

/-- Witness for C6's amended theorem: each hypothesis discharged at a
concrete input — the absent route id "M9" over empty tables, an unknown
origin "A" over empty tables, and a disconnected pair on the two-node
network with no roads. -/
theorem C6_error_values_amended_witness :
    (([] : List MetroRow).find? (fun r => r.lineID == "M9") = none ∧
      optimize_public_transit [] [] [] [] [] [] "M9" "metro" "Passenger Capacity" =
        Except.error PyErr.indexError) ∧
    (((buildERGraph [] [] [] (buildTrafficDict []) 3).hasNode "A" &&
        (buildERGraph [] [] [] (buildTrafficDict []) 3).hasNode "B") = false ∧
      plan_emergency_routes sqrtER [] [] [] [] "A" "B" 3 true [] [] =
        ⟨[], [], 0, 0, 0, 0, [], 0⟩) ∧
    (((buildTOGraph nbsTwo [] [] (buildTrafficDict []) false (3/2) false).hasNode "A" &&
        (buildTOGraph nbsTwo [] [] (buildTrafficDict []) false (3/2) false).hasNode "B")
        = true ∧
      optimize_traffic_flow nbsTwo [] [] [] "A" "B" false (3/2) false 3 (3/10) =
        Except.ok ⟨[], 0, 0, [], [], [],
          some "No path exists between the selected origin and destination."⟩) :=
  ⟨⟨by decide, C6_error_values_amended.1 [] [] [] [] [] [] "M9" "Passenger Capacity"
      (by decide)⟩,
   ⟨by decide, C6_error_values_amended.2.1 sqrtER [] [] [] [] "A" "B" 3 true [] []
      (by decide)⟩,
   ⟨by decide, C6_error_values_amended.2.2 nbsTwo [] [] [] "A" "B" false (3/2) false 3 (3/10)
      (by decide) (by decide)⟩⟩

/-- Membership bounds for the integer range `range(lo, hi + 1)`. -/
theorem mem_intRange {lo hi r : ℤ} (h : r ∈ intRange lo hi) : lo ≤ r ∧ r ≤ hi := by
  rw [intRange] at h
  obtain ⟨i, hirange, hr⟩ := List.mem_map.mp h
  have hi2 := List.mem_range.mp hirange
  omega

/-- Every entry of a `dpScheduleFast` schedule carries the truncated
headway `max(3, int(base_headway * base_resources / resources))`, the
truncated capacity derived from it, and a resource count between the
route-type minimum and the availability cap. -/
theorem dpScheduleFast_entries (m : Bool) (bh bc : ℚ) (br av : ℤ) :
    ∀ (slots : List SlotInfo),
      ∀ e ∈ (dpScheduleFast m bh bc br av slots).2,
        e.headway = intMax 3 (ratTrunc (bh * (br : ℚ) / (e.resources : ℚ))) ∧
        e.capacity = ratTrunc ((e.resources : ℚ) * bc * 60 / (e.headway : ℚ)) ∧
        (if m then (2 : ℤ) else 1) ≤ e.resources ∧ e.resources ≤ av := by
  intro slots
  induction slots with
  | nil => intro e he; simp [dpScheduleFast] at he
  | cons s rest ih =>
    intro e he
    rw [dpScheduleFast] at he
    set sub := dpScheduleFast m bh bc br av rest with hsub
    set minr : ℤ := if m then 2 else 1 with hminr
    set maxr := intMin av (if s.isPeak then br else ratTrunc ((br : ℚ) * (8/10))) with hmaxr
    have hmax_le : maxr ≤ av := by
      rw [hmaxr]; unfold intMin; split <;> omega
    have key : ∀ (rs : List ℤ) (acc : Option ℚ × List SchedEntry),
        (∀ r ∈ rs, minr ≤ r ∧ r ≤ av) →
        (∀ x ∈ acc.2,
          x.headway = intMax 3 (ratTrunc (bh * (br : ℚ) / (x.resources : ℚ))) ∧
          x.capacity = ratTrunc ((x.resources : ℚ) * bc * 60 / (x.headway : ℚ)) ∧
          minr ≤ x.resources ∧ x.resources ≤ av) →
        ∀ x ∈ (rs.foldl
          (fun (best : Option ℚ × List SchedEntry) (resources : ℤ) =>
            let headway := intMax 3 (ratTrunc (bh * (br : ℚ) / (resources : ℚ)))
            let capacity : ℚ := (resources : ℚ) * bc * 60 / (headway : ℚ)
            let wait_cost := (headway : ℚ) / 2 * s.demand
            let cost :=
              if capacity < s.demand then wait_cost + (s.demand - capacity) * 10
              else wait_cost
            let remaining := av - resources
            if remaining < 0 then best
            else
              let total_cost := sub.1.map (fun c => cost + c)
              if costLt total_cost best.1 then
                (total_cost,
                 (⟨s.period, headway, resources, ratTrunc capacity, s.isPeak⟩ : SchedEntry)
                   :: sub.2)
              else best) acc).2,
          x.headway = intMax 3 (ratTrunc (bh * (br : ℚ) / (x.resources : ℚ))) ∧
          x.capacity = ratTrunc ((x.resources : ℚ) * bc * 60 / (x.headway : ℚ)) ∧
          minr ≤ x.resources ∧ x.resources ≤ av := by
      intro rs
      induction rs with
      | nil => intro acc _ hacc x hx; exact hacc x hx
      | cons r rs' ihr =>
        intro acc hrs hacc x hx
        refine ihr _ (fun q hq => hrs q (List.mem_cons_of_mem _ hq)) ?_ x hx
        intro y hy
        simp only at hy
        split_ifs at hy
        all_goals
          first
          | exact hacc y hy
          | (rcases List.mem_cons.mp hy with h | h
             · subst h
               exact ⟨rfl, rfl, (hrs r (List.mem_cons_self _ _)).1,
                 (hrs r (List.mem_cons_self _ _)).2⟩
             · exact ih y h)
    refine key (intRange minr maxr) (none, []) ?_ (by intro x hx; simp at hx) e he
    intro r hr
    have := mem_intRange hr
    exact ⟨this.1, le_trans this.2 hmax_le⟩

/-- A `dpScheduleFast` schedule never has more entries than slots. -/
theorem dpScheduleFast_length (m : Bool) (bh bc : ℚ) (br av : ℤ) :
    ∀ (slots : List SlotInfo),
      (dpScheduleFast m bh bc br av slots).2.length ≤ slots.length := by
  intro slots
  induction slots with
  | nil => simp [dpScheduleFast]
  | cons s rest ih =>
    rw [dpScheduleFast]
    set sub := dpScheduleFast m bh bc br av rest with hsub
    set minr : ℤ := if m then 2 else 1 with hminr
    set maxr := intMin av (if s.isPeak then br else ratTrunc ((br : ℚ) * (8/10))) with hmaxr
    have key : ∀ (rs : List ℤ) (acc : Option ℚ × List SchedEntry),
        acc.2.length ≤ rest.length + 1 →
        (rs.foldl
          (fun (best : Option ℚ × List SchedEntry) (resources : ℤ) =>
            let headway := intMax 3 (ratTrunc (bh * (br : ℚ) / (resources : ℚ)))
            let capacity : ℚ := (resources : ℚ) * bc * 60 / (headway : ℚ)
            let wait_cost := (headway : ℚ) / 2 * s.demand
            let cost :=
              if capacity < s.demand then wait_cost + (s.demand - capacity) * 10
              else wait_cost
            let remaining := av - resources
            if remaining < 0 then best
            else
              let total_cost := sub.1.map (fun c => cost + c)
              if costLt total_cost best.1 then
                (total_cost,
                 (⟨s.period, headway, resources, ratTrunc capacity, s.isPeak⟩ : SchedEntry)
                   :: sub.2)
              else best) acc).2.length ≤ rest.length + 1 := by
      intro rs
      induction rs with
      | nil => intro acc h; exact h
      | cons r rs' ihr =>
        intro acc h
        refine ihr _ ?_
        simp only
        split_ifs
        all_goals
          first
          | exact h
          | exact Nat.succ_le_succ ih
    simpa using key (intRange minr maxr) (none, []) (by simp)

/-- Claim C9, amended: the schedule DP over `(slot_index,
remaining_resource_budget)` has terminal value zero cost with an empty
continuation past the last slot; its value is independent of the
remaining-budget component (the recursion passes the reduced budget but
never reads it, so feasibility is checked against the full availability in
every slot); it returns at most one entry per slot; and every returned
slot entry carries `headway = max(3, int(base_headway * base_resources /
resources))` — the integer-truncated form of the claim's formula — with
the capacity derived from it and a resource count within
`[min_resources, available_resources]`. -/
theorem C9_schedule_dp_amended (m : Bool) (bh bc : ℚ) (br av : ℤ)
    (slots : List SlotInfo) (rem r1 r2 : ℤ) :
    dp_schedule m bh bc br av [] rem = (some 0, []) ∧
    dp_schedule m bh bc br av slots r1 = dp_schedule m bh bc br av slots r2 ∧
    (dp_schedule m bh bc br av slots rem).2.length ≤ slots.length ∧
    ∀ e ∈ (dp_schedule m bh bc br av slots rem).2,
      e.headway = intMax 3 (ratTrunc (bh * (br : ℚ) / (e.resources : ℚ))) ∧
      e.capacity = ratTrunc ((e.resources : ℚ) * bc * 60 / (e.headway : ℚ)) ∧
      (if m then (2 : ℤ) else 1) ≤ e.resources ∧ e.resources ≤ av := by
  refine ⟨rfl, ?_, ?_, ?_⟩
  · rw [dp_schedule_eq_fast, dp_schedule_eq_fast]
  · rw [dp_schedule_eq_fast]
    exact dpScheduleFast_length m bh bc br av slots
  · rw [dp_schedule_eq_fast]
    exact dpScheduleFast_entries m bh bc br av slots

set_option maxRecDepth 8000 in
/-- Witness for C9's amended theorem at the concrete 19-slot instance: the
first returned entry uses 3 vehicles and headway `max(3, int(40/3)) = 13`,
and each hypothesis of the entry characterisation is discharged by
computation. -/
theorem C9_schedule_dp_amended_witness :
    (⟨"5-6 AM", 13, 3, 20769, true⟩ : SchedEntry) ∈ (dp_schedule true 5 1500 8 3 slotsC9 3).2 ∧
    (13 : ℤ) = intMax 3 (ratTrunc (5 * (8 : ℚ) / (3 : ℚ))) ∧
    ((2 : ℤ) ≤ 3 ∧ (3 : ℤ) ≤ 3) := by
  have hmem : (⟨"5-6 AM", 13, 3, 20769, true⟩ : SchedEntry) ∈
      (dp_schedule true 5 1500 8 3 slotsC9 3).2 := by
    rw [dp_schedule_eq_fast]
    decide
  have h := (C9_schedule_dp_amended true 5 1500 8 3 slotsC9 3 0 1).2.2.2 _ hmem
  exact ⟨hmem, h.1, h.2.2⟩

/-- A dict assignment under a fresh key is an append. -/
theorem dictSet_fresh {κ ν : Type} [BEq κ] [LawfulBEq κ] (l : List (κ × ν)) (k : κ) (v : ν)
    (h : k ∉ l.map Prod.fst) : dictSet l k v = l ++ [(k, v)] := by
  have hc : ¬ (l.any (fun p => p.1 == k) = true) := by
    intro hx
    obtain ⟨p, hp, hpk⟩ := List.any_eq_true.mp hx
    exact h (List.mem_map.mpr ⟨p, hp, eq_of_beq hpk⟩)
  rw [dictSet, if_neg hc]

/-- One `preemptStep` agrees with the amended per-index description: when
the index qualifies, the spec entry is stored and its `time_saved`
accumulated; otherwise the state is unchanged. -/
theorem preemptStep_spec (inters : List NodeId) (signals : List (NodeId × ℚ))
    (path : List NodeId) (traffic : List TrafficRow)
    (st : List (NodeId × PreemptEntry) × ℚ) (i : Nat) :
    preemptStep inters signals path traffic st i =
      match specPreemptEntryAt inters signals traffic path i with
      | some (n, e) => (dictSet st.1 n e, st.2 + e.time_saved)
      | none => st := by
  simp only [preemptStep, specPreemptEntryAt, lookupIncomingVolume]
  split_ifs with h1 h2 <;> simp

/-- `preemptStep` at a non-qualifying index leaves the state unchanged. -/
theorem preemptStep_spec_none (inters : List NodeId) (signals : List (NodeId × ℚ))
    (path : List NodeId) (traffic : List TrafficRow)
    (st : List (NodeId × PreemptEntry) × ℚ) (i : Nat)
    (h : specPreemptEntryAt inters signals traffic path i = none) :
    preemptStep inters signals path traffic st i = st := by
  rw [preemptStep_spec, h]

/-- `preemptStep` at a qualifying index stores the spec entry and adds its
saved time. -/
theorem preemptStep_spec_some (inters : List NodeId) (signals : List (NodeId × ℚ))
    (path : List NodeId) (traffic : List TrafficRow)
    (st : List (NodeId × PreemptEntry) × ℚ) (i : Nat) (n : NodeId) (e : PreemptEntry)
    (h : specPreemptEntryAt inters signals traffic path i = some (n, e)) :
    preemptStep inters signals path traffic st i = (dictSet st.1 n e, st.2 + e.time_saved) := by
  rw [preemptStep_spec, h]

/-- The preemption loop over any index list with pairwise-distinct
qualifying nodes, all fresh for the accumulated plan, appends exactly the
per-index spec entries and adds up their saved times. -/
theorem preemptLoop_char (inters : List NodeId) (signals : List (NodeId × ℚ))
    (path : List NodeId) (traffic : List TrafficRow) :
    ∀ (idxs : List Nat) (plan0 : List (NodeId × PreemptEntry)) (tot0 : ℚ),
      (idxs.filterMap (preemptNameAt inters signals traffic path)).Nodup →
      (∀ n ∈ idxs.filterMap (preemptNameAt inters signals traffic path),
        n ∉ plan0.map Prod.fst) →
      idxs.foldl (preemptStep inters signals path traffic) (plan0, tot0) =
        (plan0 ++ idxs.filterMap (specPreemptEntryAt inters signals traffic path),
         tot0 + ((idxs.filterMap (specPreemptEntryAt inters signals traffic path)).map
           (fun p => p.2.time_saved)).sum) := by
  intro idxs
  induction idxs with
  | nil => intro plan0 tot0 _ _; simp
  | cons i rest ih =>
    intro plan0 tot0 hnodup hfresh
    rw [List.foldl_cons]
    cases hspec : specPreemptEntryAt inters signals traffic path i with
    | none =>
      have hname : preemptNameAt inters signals traffic path i = none := by
        rw [preemptNameAt, hspec]; rfl
      rw [List.filterMap_cons_none hname] at hnodup hfresh
      rw [List.filterMap_cons_none hspec]
      rw [preemptStep_spec_none _ _ _ _ _ _ hspec]
      exact ih plan0 tot0 hnodup hfresh
    | some p =>
      obtain ⟨n, e⟩ := p
      have hname : preemptNameAt inters signals traffic path i = some n := by
        rw [preemptNameAt, hspec]; rfl
      rw [List.filterMap_cons_some hname] at hnodup hfresh
      rw [List.filterMap_cons_some hspec]
      rw [preemptStep_spec_some _ _ _ _ _ _ _ _ hspec]
      have hfresh_n : n ∉ plan0.map Prod.fst :=
        hfresh n (List.mem_cons_self _ _)
      rw [dictSet_fresh _ _ _ hfresh_n]
      have hrest := ih (plan0 ++ [(n, e)]) (tot0 + e.time_saved)
        (List.Nodup.of_cons hnodup) ?_
      · rw [hrest, List.append_assoc, List.singleton_append, List.map_cons,
          List.sum_cons, add_assoc]
      · intro m hm
        rw [List.map_append]
        intro hmem
        rcases List.mem_append.mp hmem with hin | hin
        · exact hfresh m (List.mem_cons_of_mem _ hm) hin
        · have hmn : m = n := by simpa using hin
          exact (List.nodup_cons.mp hnodup).1 (hmn ▸ hm)

/-- Claim C3, amended: for every interior node of the emergency path that
is a known intersection with a known signal plan, preemption is effective
iff the looked-up incoming volume — the first directional `(prev, node)`
measurement, defaulting to 1000 when none exists — is at least the
congestion threshold 1000, with time saved equal to half the
intersection's cycle time; otherwise the entry is ineffective with reason
"Low traffic volume" and zero time saved.  In particular an intersection
with no recorded incoming measurement is treated as congested and returns
`preemption_effective = True`.  The aggregate saved time is the sum of the
per-entry saved times, i.e. the sum over effective preemptions. -/
theorem C3_preemption_amended (inters : List NodeId) (signals : List (NodeId × ℚ))
    (path : List NodeId) (traffic : List TrafficRow)
    (h : ((List.range' 1 (path.length - 2)).filterMap
      (preemptNameAt inters signals traffic path)).Nodup) :
    preempt_intersection_signals inters signals path traffic =
      ((List.range' 1 (path.length - 2)).filterMap
        (specPreemptEntryAt inters signals traffic path),
       (((List.range' 1 (path.length - 2)).filterMap
         (specPreemptEntryAt inters signals traffic path)).map
           (fun p => p.2.time_saved)).sum) ∧
    ∀ p ∈ (preempt_intersection_signals inters signals path traffic).1,
      (p.2.preemption_effective = true → p.2.reason = none) ∧
      (p.2.preemption_effective = false →
        p.2.time_saved = 0 ∧ p.2.reason = some "Low traffic volume") := by
  have hmain := preemptLoop_char inters signals path traffic
    (List.range' 1 (path.length - 2)) [] 0 h (by intro n _ hn; simp at hn)
  rw [preempt_intersection_signals]
  constructor
  · rw [hmain]
    simp
  · rw [hmain]
    intro p hp
    simp only [List.nil_append] at hp
    obtain ⟨i, _, hi⟩ := List.mem_filterMap.mp hp
    simp only [specPreemptEntryAt] at hi
    split_ifs at hi with h1 h2
    · cases hi
      refine ⟨fun _ => rfl, fun hc => ?_⟩
      simp at hc
    · cases hi
      refine ⟨fun hc => ?_, fun _ => ⟨rfl, rfl⟩⟩
      simp at hc

/-- Witness for C3's amended theorem: path A-X-Y-B where X's incoming road
reports 500 veh/h (ineffective) and Y has no recorded incoming measurement
(defaulted to 1000, effective, saving half of Y's 80 s cycle). -/
theorem C3_preemption_amended_witness :
    (((List.range' 1 ((["A", "X", "Y", "B"] : List NodeId).length - 2)).filterMap
      (preemptNameAt ["X", "Y"] [("X", 60), ("Y", 80)] [⟨"A", "X", 500⟩]
        ["A", "X", "Y", "B"])).Nodup) ∧
    preempt_intersection_signals ["X", "Y"] [("X", 60), ("Y", 80)] ["A", "X", "Y", "B"]
        [⟨"A", "X", 500⟩] =
      ((List.range' 1 ((["A", "X", "Y", "B"] : List NodeId).length - 2)).filterMap
        (specPreemptEntryAt ["X", "Y"] [("X", 60), ("Y", 80)] [⟨"A", "X", 500⟩]
          ["A", "X", "Y", "B"]),
       (((List.range' 1 ((["A", "X", "Y", "B"] : List NodeId).length - 2)).filterMap
         (specPreemptEntryAt ["X", "Y"] [("X", 60), ("Y", 80)] [⟨"A", "X", 500⟩]
           ["A", "X", "Y", "B"])).map (fun p => p.2.time_saved)).sum) ∧
    (preempt_intersection_signals ["X", "Y"] [("X", 60), ("Y", 80)] ["A", "X", "Y", "B"]
      [⟨"A", "X", 500⟩]).2 = 40 :=
  ⟨by decide,
   (C3_preemption_amended ["X", "Y"] [("X", 60), ("Y", 80)] ["A", "X", "Y", "B"]
     [⟨"A", "X", 500⟩] (by decide)).1,
   by decide⟩

/-- `pathPairs` has one entry per consecutive pair. -/
theorem pathPairs_length (p : List NodeId) : (pathPairs p).length = p.length - 1 := by
  simp [pathPairs]

/-- The `k`-th entry of `pathPairs` is the ordered `k`-th edge. -/
theorem pathPairs_getD (p : List NodeId) (k : Nat) (h : k < p.length - 1) :
    (pathPairs p).getD k ("", "") = ordPair (p.getD k "") (p.getD (k+1) "") := by
  have hk : k < (pathPairs p).length := by rw [pathPairs_length]; omega
  have hkp : k < p.length := by omega
  rw [List.getD_eq_getElem _ _ hk]
  simp only [pathPairs, List.getElem_map, List.getElem_zip, List.getElem_tail]
  rw [List.getD_eq_getElem _ _ hkp, List.getD_eq_getElem _ _ (by omega : k + 1 < p.length)]

/-- Taking one more element appends the next entry. -/
theorem take_succ_of_lt {α : Type} (l : List α) (n : Nat) (h : n < l.length) (d : α) :
    l.take (n+1) = l.take n ++ [l.getD n d] := by
  rw [List.take_succ, List.getD_eq_getElem _ _ h]
  simp [List.getElem?_eq_getElem h]

/-- In a duplicate-free list the `n`-th entry is not among the first `n`. -/
theorem getD_not_mem_take {α : Type} (l : List α) (n : Nat) (h : n < l.length)
    (hnd : l.Nodup) (d : α) : l.getD n d ∉ l.take n := by
  rw [List.getD_eq_getElem _ _ h]
  intro hmem
  obtain ⟨i, hi, hieq⟩ := List.mem_take_iff_getElem.mp hmem
  have : i = n := (List.Nodup.getElem_inj_iff hnd).mp hieq
  omega

/-- When the optimal path repeats no edge and the excluded set holds
exactly the first `k` optimal-path edges, one loop iteration at index `k`
updates the accepted paths as in the fresh-copy description and extends
the excluded set to the first `k+1` edges. -/
theorem altIteration_spec (G : Graph TONode TOEdge) (fid tid : NodeId)
    (p : List NodeId) (edges : List (NodeId × NodeId)) (thr : ℚ) (k : Nat)
    (st : AltState) (hnd : (pathPairs p).Nodup)
    (hexc : st.excluded = (pathPairs p).take k) :
    (altIteration G fid tid p edges thr k st).alts =
      specAltStep G fid tid p edges thr st.alts k ∧
    (altIteration G fid tid p edges thr k st).excluded = (pathPairs p).take (k+1) := by
  obtain ⟨alts, dists, times, exc⟩ := st
  simp only at hexc
  subst hexc
  simp only [altIteration, specAltStep]
  by_cases hk : k < p.length - 1
  · rw [if_pos hk, if_pos hk]
    have hklen : k < (pathPairs p).length := by rw [pathPairs_length]; omega
    have hnot : ordPair (p.getD k "") (p.getD (k+1) "") ∉ (pathPairs p).take k := by
      rw [← pathPairs_getD p k hk]
      exact getD_not_mem_take _ _ hklen hnd _
    rw [if_neg hnot]
    have htake : (pathPairs p).take k ++ [ordPair (p.getD k "") (p.getD (k+1) "")] =
        (pathPairs p).take (k+1) := by
      rw [← pathPairs_getD p k hk]
      exact (take_succ_of_lt _ _ hklen _).symm
    cases hsp : (G.removeEdge (p.getD k "") (p.getD (k+1) "")).shortestPath
        (fun e => e.time) fid tid with
    | none => simp [hsp, ← List.getD_eq_getElem?_getD, htake]
    | some alt_path =>
      simp only [hsp]
      split_ifs with hacc <;> simp [← List.getD_eq_getElem?_getD, htake]
  · rw [if_neg hk, if_neg hk]
    have htake : (pathPairs p).take (k+1) = (pathPairs p).take k := by
      rw [List.take_of_length_le, List.take_of_length_le] <;> (rw [pathPairs_length]; omega)
    cases hsp : G.shortestPath (fun e => e.time) fid tid with
    | none => simp [hsp, htake]
    | some alt_path =>
      simp only [hsp]
      split_ifs with hacc <;> simp [htake]

/-- The whole alternative-path loop over indices `k, …, k+m−1`, started
with the first `k` optimal-path edges excluded, accepts exactly the paths
of the fresh-copy description and ends with the first `k+m` edges
excluded, provided the optimal path repeats no edge. -/
theorem altLoop_fresh (G : Graph TONode TOEdge) (fid tid : NodeId)
    (p : List NodeId) (edges : List (NodeId × NodeId)) (thr : ℚ)
    (hnd : (pathPairs p).Nodup) :
    ∀ (m k : Nat) (st : AltState), st.excluded = (pathPairs p).take k →
      (altLoop G fid tid p edges thr (List.range' k m) st).alts =
        (List.range' k m).foldl (specAltStep G fid tid p edges thr) st.alts ∧
      (altLoop G fid tid p edges thr (List.range' k m) st).excluded =
        (pathPairs p).take (k + m) := by
  intro m
  induction m with
  | zero => intro k st hexc; simpa [altLoop] using hexc
  | succ m ih =>
    intro k st hexc
    rw [List.range'_succ]
    have h1 : altLoop G fid tid p edges thr (k :: List.range' (k+1) m) st =
        altLoop G fid tid p edges thr (List.range' (k+1) m)
          (altIteration G fid tid p edges thr k st) := rfl
    rw [h1, List.foldl_cons]
    have hstep := altIteration_spec G fid tid p edges thr k st hnd hexc
    have hrec := ih (k+1) (altIteration G fid tid p edges thr k st) hstep.2
    rw [hrec.1, hrec.2, hstep.1]
    refine ⟨rfl, ?_⟩
    congr 1
    omega

/-- One step of the fresh-copy description adds at most one path. -/
theorem specAltStep_length (G : Graph TONode TOEdge) (fid tid : NodeId)
    (p : List NodeId) (edges : List (NodeId × NodeId)) (thr : ℚ)
    (alts : List (List NodeId)) (i : Nat) :
    (specAltStep G fid tid p edges thr alts i).length ≤ alts.length + 1 := by
  simp only [specAltStep]
  split
  · omega
  · split_ifs <;> simp

/-- The fresh-copy description adds at most one path per index. -/
theorem specAltFold_length (G : Graph TONode TOEdge) (fid tid : NodeId)
    (p : List NodeId) (edges : List (NodeId × NodeId)) (thr : ℚ) :
    ∀ (idxs : List Nat) (alts : List (List NodeId)),
      (idxs.foldl (specAltStep G fid tid p edges thr) alts).length ≤
        alts.length + idxs.length := by
  intro idxs
  induction idxs with
  | nil => intro alts; simp
  | cons i rest ih =>
    intro alts
    rw [List.foldl_cons]
    have h1 := ih (specAltStep G fid tid p edges thr alts i)
    have h2 := specAltStep_length G fid tid p edges thr alts i
    simp only [List.length_cons]
    omega

/-- Claim C4, amended: in `optimize_traffic_flow`, when the optimal path
repeats no edge, each iteration `i` removes the `i`-th optimal-path edge
from a fresh copy of the graph (removals do NOT accumulate: the `i`-th
re-search runs in a graph missing only that one edge, or no edge when `i`
is past the last one), and a candidate alternative is accepted iff it is
distinct from all already-accepted alternatives and either its edge set
differs from the optimal path's by at least the diversity_threshold
fraction or no alternative has been accepted yet; at most
`max_alternatives` alternatives are returned. -/
theorem C4_alternatives_amended (nbs : List NbRow) (fac : List FacRow)
    (roads : List RoadRow) (traffic : List TrafficRow) (from_id to_id : NodeId)
    (ct : Bool) (cf : ℚ) (crq : Bool) (maxalts : Nat) (thr : ℚ) (r : TOResult)
    (hok : optimize_traffic_flow nbs fac roads traffic from_id to_id ct cf crq maxalts thr
      = Except.ok r)
    (hnone : r.error_message = none)
    (hnd : (pathPairs r.optimal_path).Nodup) :
    r.alternative_paths =
      specAltsFresh (buildTOGraph nbs fac roads (buildTrafficDict traffic) ct cf crq)
        from_id to_id r.optimal_path (pyEdgeSet r.optimal_path) thr maxalts ∧
    r.alternative_paths.length ≤ maxalts := by
  simp only [optimize_traffic_flow] at hok
  split_ifs at hok with hnodes
  · split at hok
    · obtain rfl := Except.ok.inj hok
      simp at hnone
    · next op heq =>
      obtain rfl := Except.ok.inj hok
      dsimp only at hnd ⊢
      have hmain := altLoop_fresh
        (buildTOGraph nbs fac roads (buildTrafficDict traffic) ct cf crq)
        from_id to_id op (pyEdgeSet op) thr hnd maxalts 0 ⟨[], [], [], []⟩ rfl
      rw [List.range_eq_range']
      constructor
      · rw [specAltsFresh, List.range_eq_range']
        exact hmain.1
      · rw [hmain.1]
        have := specAltFold_length
          (buildTOGraph nbs fac roads (buildTrafficDict traffic) ct cf crq)
          from_id to_id op (pyEdgeSet op) thr (List.range' 0 maxalts) []
        simpa using this

/-- Witness for C4's amended theorem: the A-to-C run on the five-location
network, whose optimal path A-B-C has distinct edges; the code's two
alternatives match the fresh-copy description and fit the cap of 3. -/
theorem C4_alternatives_amended_witness :
    optimize_traffic_flow nbsAlt [] roadsAlt [] "A" "C" false (3/2) false 3 (3/10) =
      Except.ok rC4 ∧
    rC4.error_message = none ∧
    (pathPairs rC4.optimal_path).Nodup ∧
    (rC4.alternative_paths =
      specAltsFresh (buildTOGraph nbsAlt [] roadsAlt (buildTrafficDict []) false (3/2) false)
        "A" "C" rC4.optimal_path (pyEdgeSet rC4.optimal_path) (3/10) 3 ∧
     rC4.alternative_paths.length ≤ 3) :=
  ⟨by decide, rfl, by decide,
   C4_alternatives_amended nbsAlt [] roadsAlt [] "A" "C" false (3/2) false 3 (3/10) rC4
     (by decide) rfl (by decide)⟩

/-- The budget-greedy fold over any edge list, from any accumulated state:
the admitted `(u, v, cost)` entries are exactly the edges kept by the
standalone recursion, and the budget used is the starting amount plus
their total cost. -/
theorem budgetFold_char (B : Option ℚ) :
    ∀ (l : List MstEdge) (G : Graph TONode InfEdge)
      (acc : List (NodeId × NodeId × ℚ)) (spent : ℚ),
      (l.foldl (budgetStep B) (G, acc, spent)).2.1 =
        acc ++ (specBudgetGreedyGo B l spent).map (fun e => (e.1, e.2.1, e.2.2.cost)) ∧
      (l.foldl (budgetStep B) (G, acc, spent)).2.2 =
        spent + ((specBudgetGreedyGo B l spent).map (fun e => e.2.2.cost)).sum := by
  intro l
  induction l with
  | nil => intro G acc spent; simp [specBudgetGreedyGo]
  | cons e rest ih =>
    intro G acc spent
    rw [List.foldl_cons]
    simp only [budgetStep, specBudgetGreedyGo]
    split_ifs with hc
    · have h := ih (G.addEdge toDefaultNode e.1 e.2.1 e.2.2)
        (acc ++ [(e.1, e.2.1, e.2.2.cost)]) (spent + e.2.2.cost)
      rw [h.1, h.2]
      constructor
      · simp
      · simp [add_assoc]
    · exact ih G acc spent

/-- The standalone recursion never lets the running total pass the cap. -/
theorem specGo_sum_le (b : ℚ) :
    ∀ (l : List MstEdge) (spent : ℚ), spent ≤ b →
      spent + ((specBudgetGreedyGo (some b) l spent).map (fun e => e.2.2.cost)).sum ≤ b := by
  intro l
  induction l with
  | nil => intro spent h; simpa [specBudgetGreedyGo] using h
  | cons e rest ih =>
    intro spent h
    rw [specBudgetGreedyGo]
    split_ifs with hc
    · have hbound : spent + e.2.2.cost ≤ b := by
        have h2 := ((Bool.and_eq_true _ _).mp hc).2
        simpa using h2
      have h3 := ih (spent + e.2.2.cost) hbound
      simp only [List.map_cons, List.sum_cons]
      rw [← add_assoc]
      exact h3
    · exact ih spent h

/-- Claim C5, amended: after the MST is computed the candidate edges are
stable-sorted by cost per unit of population served — cost divided by
(population(u) + population(v) + 1) ascending, with non-positive-cost
edges sorting last, not cost-per-km with zero-cost first — and an edge
tagged `potential` is kept iff the cumulative committed budget after
adding it does not exceed the cap (every potential candidate kept when no
cap is given); the budget used equals the total cost of the kept edges
and never exceeds a non-negative cap.  Rejected candidates are never
added to the result graph. -/
theorem C5_budget_greedy_amended (gpot G : Graph TONode InfEdge) (mst : List MstEdge)
    (B : Option ℚ) :
    (addPotentialWithinBudget gpot mst B G).2.1 =
      (specBudgetGreedy gpot mst B).map (fun e => (e.1, e.2.1, e.2.2.cost)) ∧
    (addPotentialWithinBudget gpot mst B G).2.2 =
      ((specBudgetGreedy gpot mst B).map (fun e => e.2.2.cost)).sum ∧
    ∀ b : ℚ, B = some b → 0 ≤ b → (addPotentialWithinBudget gpot mst B G).2.2 ≤ b := by
  have h := budgetFold_char B (stableSortBy (budgetKeyLe gpot) mst) G [] 0
  refine ⟨?_, ?_, ?_⟩
  · rw [addPotentialWithinBudget, specBudgetGreedy]
    simpa using h.1
  · rw [addPotentialWithinBudget, specBudgetGreedy]
    simpa using h.2
  · intro b hB hb
    subst hB
    rw [addPotentialWithinBudget, h.2]
    simpa using specGo_sum_le b (stableSortBy (budgetKeyLe gpot) mst) 0 hb

/-- Witness for C5's amended theorem at the two-candidate network of the
counterexample: the kept list matches the amended description and the
budget used stays within the cap of 20. -/
theorem C5_budget_greedy_amended_witness :
    (addPotentialWithinBudget gpotC5 (kruskalMST gpotC5 kedgesC5) (some 20) gpotC5).2.1 =
      (specBudgetGreedy gpotC5 (kruskalMST gpotC5 kedgesC5) (some 20)).map
        (fun e => (e.1, e.2.1, e.2.2.cost)) ∧
    ((0 : ℚ) ≤ 20 ∧
     (addPotentialWithinBudget gpotC5 (kruskalMST gpotC5 kedgesC5) (some 20) gpotC5).2.2 ≤ 20) :=
  ⟨(C5_budget_greedy_amended gpotC5 gpotC5 (kruskalMST gpotC5 kedgesC5) (some 20)).1,
   by decide,
   (C5_budget_greedy_amended gpotC5 gpotC5 (kruskalMST gpotC5 kedgesC5)
     (some 20)).2.2 20 rfl (by decide)⟩

/-- A dict lookup over an append prefers the later entries. -/
theorem dictGet_append {κ ν : Type} [BEq κ] (l1 l2 : List (κ × ν)) (k : κ) :
    dictGet (l1 ++ l2) k =
      match dictGet l2 k with
      | some v => some v
      | none => dictGet l1 k := by
  rw [dictGet, dictGet, dictGet, List.reverse_append, List.find?_append]
  cases h : l2.reverse.find? (fun e => e.1 == k) with
  | none => simp [h]
  | some p => simp [h]

/-- One more traffic row appends its two directed entries. -/
theorem buildTrafficDict_snoc (rows : List TrafficRow) (r : TrafficRow) :
    buildTrafficDict (rows ++ [r]) =
      buildTrafficDict rows ++
        [((r.fromID, r.toID), r.volume), ((r.toID, r.fromID), r.volume)] := by
  rw [buildTrafficDict, List.foldl_append]
  rfl

/-- Looking a pair up in one row's two entries succeeds iff the row
matches the pair in either direction. -/
theorem dictGet_pair_entries (r : TrafficRow) (a b : NodeId) :
    dictGet [((r.fromID, r.toID), r.volume), ((r.toID, r.fromID), r.volume)] (a, b) =
      (if (r.fromID = a ∧ r.toID = b) ∨ (r.fromID = b ∧ r.toID = a)
       then some r.volume else none) := by
  rw [dictGet]
  rw [show ([((r.fromID, r.toID), r.volume), ((r.toID, r.fromID), r.volume)] :
      List ((NodeId × NodeId) × ℚ)).reverse =
    [((r.toID, r.fromID), r.volume), ((r.fromID, r.toID), r.volume)] from rfl]
  by_cases hb1 : ((r.toID, r.fromID) : NodeId × NodeId) = (a, b)
  · have hbeq : (((r.toID, r.fromID) : NodeId × NodeId) == (a, b)) = true := by
      simp [hb1]
    have h' := hb1
    rw [Prod.mk.injEq] at h'
    simp only [List.find?, hbeq, Option.map]
    rw [if_pos (Or.inr ⟨h'.2, h'.1⟩)]
  · have hbeq : (((r.toID, r.fromID) : NodeId × NodeId) == (a, b)) = false := by
      simp [hb1]
    by_cases hb2 : ((r.fromID, r.toID) : NodeId × NodeId) = (a, b)
    · have hbeq2 : (((r.fromID, r.toID) : NodeId × NodeId) == (a, b)) = true := by
        simp [hb2]
      have h' := hb2
      rw [Prod.mk.injEq] at h'
      simp only [List.find?, hbeq, hbeq2, Option.map]
      rw [if_pos (Or.inl ⟨h'.1, h'.2⟩)]
    · have hbeq2 : (((r.fromID, r.toID) : NodeId × NodeId) == (a, b)) = false := by
        simp [hb2]
      simp only [List.find?, hbeq, hbeq2, Option.map]
      rw [if_neg]
      rintro (⟨h1, h2⟩ | ⟨h1, h2⟩)
      · exact hb2 (by rw [h1, h2])
      · exact hb1 (by rw [h1, h2])

/-- The traffic-dict lookup for an unordered pair is the last matching
row in either direction. -/
theorem buildTrafficDict_get (a b : NodeId) :
    ∀ rows : List TrafficRow,
      dictGet (buildTrafficDict rows) (a, b) =
        ((rows.filter (fun t =>
          (t.fromID = a ∧ t.toID = b) ∨ (t.fromID = b ∧ t.toID = a))).getLast?).map
            (fun t => t.volume) := by
  intro rows
  induction rows using List.reverseRecOn with
  | nil => rfl
  | append_singleton l r ih =>
    rw [buildTrafficDict_snoc, dictGet_append, dictGet_pair_entries, List.filter_append]
    by_cases hm : (r.fromID = a ∧ r.toID = b) ∨ (r.fromID = b ∧ r.toID = a)
    · rw [if_pos hm]
      have hfr : List.filter (fun t =>
          decide ((t.fromID = a ∧ t.toID = b) ∨ (t.fromID = b ∧ t.toID = a))) [r] = [r] := by
        simp [hm]
      rw [hfr]
      simp
    · rw [if_neg hm]
      have hfr : List.filter (fun t =>
          decide ((t.fromID = a ∧ t.toID = b) ∨ (t.fromID = b ∧ t.toID = a))) [r] = [] := by
        simp [hm]
      rw [hfr, List.append_nil]
      exact ih

/-- `addEdge` overwrites the unordered pair in place when present and
appends it otherwise; nodes never affect the edge list. -/
theorem addEdge_edges {ν ε : Type} (g : Graph ν ε) (d : ν) (u v : NodeId) (a : ε) :
    (g.addEdge d u v a).edges =
      if g.hasEdge u v then
        g.edges.map (fun e =>
          if (e.1 == u && e.2.1 == v) || (e.1 == v && e.2.1 == u) then (e.1, e.2.1, a) else e)
      else g.edges ++ [(u, v, a)] := by
  simp only [Graph.addEdge]
  split_ifs <;>
    first
      | rfl
      | (exact absurd ‹Graph.hasEdge g u v = true› ‹¬Graph.hasEdge g u v = true›)

/-- After overwriting a present pair, looking it up yields the new
attributes. -/
theorem find?_overwrite_self {ε : Type} (u v : NodeId) (a : ε) :
    ∀ l : List (NodeId × NodeId × ε),
      l.any (fun e => (e.1 == u && e.2.1 == v) || (e.1 == v && e.2.1 == u)) = true →
      ((l.map (fun e => if (e.1 == u && e.2.1 == v) || (e.1 == v && e.2.1 == u)
          then (e.1, e.2.1, a) else e)).find?
        (fun e => (e.1 == u && e.2.1 == v) || (e.1 == v && e.2.1 == u))).map
          (fun e => e.2.2) = some a := by
  intro l
  induction l with
  | nil => intro h; simp at h
  | cons e rest ih =>
    intro h
    by_cases hp : ((e.1 == u && e.2.1 == v) || (e.1 == v && e.2.1 == u)) = true
    · simp [List.find?, hp]
    · have hpf : ((e.1 == u && e.2.1 == v) || (e.1 == v && e.2.1 == u)) = false :=
        Bool.eq_false_iff.mpr hp
      have h' : rest.any
          (fun e => (e.1 == u && e.2.1 == v) || (e.1 == v && e.2.1 == u)) = true := by
        rw [List.any_cons, hpf] at h
        simpa using h
      simpa [List.find?, hpf] using ih h'

/-- Overwriting one pair leaves lookups of a different pair unchanged. -/
theorem find?_overwrite_other {ε : Type} (u v x y : NodeId) (a : ε)
    (hneq : ¬ ((x = u ∧ y = v) ∨ (x = v ∧ y = u))) :
    ∀ l : List (NodeId × NodeId × ε),
      (((l.map (fun e => if (e.1 == u && e.2.1 == v) || (e.1 == v && e.2.1 == u)
          then (e.1, e.2.1, a) else e)).find?
        (fun e => (e.1 == x && e.2.1 == y) || (e.1 == y && e.2.1 == x))).map
          (fun e => e.2.2)) =
      ((l.find? (fun e => (e.1 == x && e.2.1 == y) || (e.1 == y && e.2.1 == x))).map
          (fun e => e.2.2)) := by
  intro l
  induction l with
  | nil => rfl
  | cons e rest ih =>
    by_cases hq : ((e.1 == x && e.2.1 == y) || (e.1 == y && e.2.1 == x)) = true
    · have hp : ((e.1 == u && e.2.1 == v) || (e.1 == v && e.2.1 == u)) = false := by
        rw [Bool.eq_false_iff]
        intro hp'
        simp only [Bool.or_eq_true, Bool.and_eq_true, beq_iff_eq] at hq hp'
        apply hneq
        rcases hq with ⟨hx, hy⟩ | ⟨hx, hy⟩ <;> rcases hp' with ⟨hu, hv⟩ | ⟨hu, hv⟩
        · exact Or.inl ⟨hx ▸ hu, hy ▸ hv⟩
        · exact Or.inr ⟨hx ▸ hu, hy ▸ hv⟩
        · exact Or.inr ⟨hy ▸ hv, hx ▸ hu⟩
        · exact Or.inl ⟨hy ▸ hv, hx ▸ hu⟩
      simp [List.find?, hq, hp]
    · have hqf : ((e.1 == x && e.2.1 == y) || (e.1 == y && e.2.1 == x)) = false :=
        Bool.eq_false_iff.mpr hq
      by_cases hp : ((e.1 == u && e.2.1 == v) || (e.1 == v && e.2.1 == u)) = true
      · simpa [List.find?, hp, hqf] using ih
      · have hpf : ((e.1 == u && e.2.1 == v) || (e.1 == v && e.2.1 == u)) = false :=
          Bool.eq_false_iff.mpr hp
        simpa [List.find?, hpf, hqf] using ih

/-- `getEdge` right after `addEdge` of the same pair returns the new
attributes. -/
theorem getEdge_addEdge_self {ν ε : Type} (g : Graph ν ε) (d : ν) (u v : NodeId) (a : ε) :
    (g.addEdge d u v a).getEdge u v = some a := by
  rw [Graph.getEdge, addEdge_edges]
  by_cases h : g.hasEdge u v = true
  · rw [if_pos h]
    rw [Graph.hasEdge] at h
    exact find?_overwrite_self u v a g.edges h
  · rw [if_neg h]
    rw [Graph.hasEdge] at h
    have hnone : g.edges.find?
        (fun e => (e.1 == u && e.2.1 == v) || (e.1 == v && e.2.1 == u)) = none := by
      rw [List.find?_eq_none]
      intro e he hpe
      exact h (List.any_eq_true.mpr ⟨e, he, hpe⟩)
    rw [List.find?_append, hnone]
    simp [List.find?]

/-- `addEdge` of a different unordered pair does not change `getEdge`. -/
theorem getEdge_addEdge_other {ν ε : Type} (g : Graph ν ε) (d : ν) (u v x y : NodeId)
    (a : ε) (hneq : ¬ ((x = u ∧ y = v) ∨ (x = v ∧ y = u))) :
    (g.addEdge d u v a).getEdge x y = g.getEdge x y := by
  rw [Graph.getEdge, Graph.getEdge, addEdge_edges]
  by_cases h : g.hasEdge u v = true
  · rw [if_pos h]
    exact find?_overwrite_other u v x y a hneq g.edges
  · rw [if_neg h]
    rw [List.find?_append]
    have hsingle : ([(u, v, a)] : List (NodeId × NodeId × ε)).find?
        (fun e => (e.1 == x && e.2.1 == y) || (e.1 == y && e.2.1 == x)) = none := by
      rw [List.find?_eq_none]
      intro e he hpe
      rw [List.mem_singleton] at he
      subst he
      simp only [Bool.or_eq_true, Bool.and_eq_true, beq_iff_eq] at hpe
      apply hneq
      rcases hpe with ⟨h1, h2⟩ | ⟨h1, h2⟩
      · exact Or.inl ⟨h1.symm, h2.symm⟩
      · exact Or.inr ⟨h2.symm, h1.symm⟩
    rw [hsingle]
    cases hfind : g.edges.find?
        (fun e => (e.1 == x && e.2.1 == y) || (e.1 == y && e.2.1 == x)) <;> simp

/-- `addRoadEdgeTO` is an `addEdge` of the standalone attribute record. -/
theorem addRoadEdgeTO_eq (tdict : List ((NodeId × NodeId) × ℚ)) (ct : Bool) (cf : ℚ)
    (crq : Bool) (g : Graph TONode TOEdge) (road : RoadRow) :
    addRoadEdgeTO tdict ct cf crq g road =
      g.addEdge toDefaultNode road.fromID road.toID (roadEdgeAttr tdict ct cf crq road) := rfl

/-- Adding roads that all avoid an unordered pair preserves that pair's
lookup. -/
theorem buildTO_fold_frozen (tdict : List ((NodeId × NodeId) × ℚ)) (ct : Bool) (cf : ℚ)
    (crq : Bool) :
    ∀ (roads : List RoadRow) (g : Graph TONode TOEdge) (x y : NodeId),
      (∀ q ∈ roads, ¬ ((q.fromID = x ∧ q.toID = y) ∨ (q.fromID = y ∧ q.toID = x))) →
      (roads.foldl (addRoadEdgeTO tdict ct cf crq) g).getEdge x y = g.getEdge x y := by
  intro roads
  induction roads with
  | nil => intro g x y _; rfl
  | cons q rest ih =>
    intro g x y hall
    rw [List.foldl_cons, ih _ x y (fun q' h => hall q' (List.mem_cons_of_mem _ h))]
    rw [addRoadEdgeTO_eq]
    refine getEdge_addEdge_other g toDefaultNode q.fromID q.toID x y _ ?_
    have h0 := hall q (List.mem_cons_self _ _)
    rintro (⟨h1, h2⟩ | ⟨h1, h2⟩)
    · exact h0 (Or.inl ⟨h1.symm, h2.symm⟩)
    · exact h0 (Or.inr ⟨h2.symm, h1.symm⟩)

/-- In a road fold with pairwise-distinct unordered endpoint pairs, each
road ends up with exactly its own attribute record. -/
theorem buildTO_fold_getEdge (tdict : List ((NodeId × NodeId) × ℚ)) (ct : Bool) (cf : ℚ)
    (crq : Bool) :
    ∀ (roads : List RoadRow) (g : Graph TONode TOEdge) (r : RoadRow),
      r ∈ roads →
      roads.Pairwise (fun r1 r2 =>
        ¬ ((r1.fromID = r2.fromID ∧ r1.toID = r2.toID) ∨
           (r1.fromID = r2.toID ∧ r1.toID = r2.fromID))) →
      (roads.foldl (addRoadEdgeTO tdict ct cf crq) g).getEdge r.fromID r.toID =
        some (roadEdgeAttr tdict ct cf crq r) := by
  intro roads
  induction roads with
  | nil => intro g r hmem; exact absurd hmem (List.not_mem_nil r)
  | cons q rest ih =>
    intro g r hmem hnd
    rcases List.mem_cons.mp hmem with rfl | hmem'
    · rw [List.foldl_cons]
      rw [buildTO_fold_frozen tdict ct cf crq rest _ r.fromID r.toID ?_]
      · rw [addRoadEdgeTO_eq]
        exact getEdge_addEdge_self _ _ _ _ _
      · intro q' hq'
        have h0 := (List.pairwise_cons.mp hnd).1 q' hq'
        rintro (⟨h1, h2⟩ | ⟨h1, h2⟩)
        · exact h0 (Or.inl ⟨h1.symm, h2.symm⟩)
        · exact h0 (Or.inr ⟨h2.symm, h1.symm⟩)
    · rw [List.foldl_cons]
      exact ih _ r hmem' (List.pairwise_cons.mp hnd).2

/-- The stored attribute record matches the specification's formulas:
base time from the condition-derived speed, the volume looked up in
either direction with the half-capacity default, and the piecewise
congestion adjustment. -/
theorem roadEdgeAttr_spec (traffic : List TrafficRow) (ct : Bool) (cf : ℚ) (crq : Bool)
    (road : RoadRow) :
    roadEdgeAttr (buildTrafficDict traffic) ct cf crq road =
      ⟨road.distance, road.capacity, road.condition,
       (dictGet (buildTrafficDict traffic) (road.fromID, road.toID)).getD 0,
       specBaseTime crq road,
       specBaseTime crq road *
         specTrafficAdjustment ct cf (specVolume traffic road) road.capacity⟩ := by
  have hvol : (match dictGet (buildTrafficDict traffic) (road.fromID, road.toID) with
      | some v => v
      | none =>
        match dictGet (buildTrafficDict traffic) (road.toID, road.fromID) with
        | some v => v
        | none => 1/2 * road.capacity) = specVolume traffic road := by
    rw [specVolume, buildTrafficDict_get]
    cases hfl : ((traffic.filter (fun t =>
        (t.fromID = road.fromID ∧ t.toID = road.toID) ∨
        (t.fromID = road.toID ∧ t.toID = road.fromID))).getLast?) with
    | some t0 => rfl
    | none =>
      rw [buildTrafficDict_get]
      have hsame : (traffic.filter (fun t =>
          decide ((t.fromID = road.toID ∧ t.toID = road.fromID) ∨
            (t.fromID = road.fromID ∧ t.toID = road.toID)))) =
          (traffic.filter (fun t =>
            decide ((t.fromID = road.fromID ∧ t.toID = road.toID) ∨
              (t.fromID = road.toID ∧ t.toID = road.fromID)))) := by
        apply List.filter_congr
        intro t _
        exact decide_eq_decide.mpr or_comm
      rw [hsame, hfl]
      rfl
  have hbase : road.distance / (60 * (if crq then 1/2 + road.condition / 20 else 1)) * 60 =
      specBaseTime crq road := by
    rw [specBaseTime]
    by_cases h : crq = true
    · rw [if_pos h, if_pos h]
    · rw [if_neg h, if_neg h, mul_one]
  rw [roadEdgeAttr]
  rw [TOEdge.mk.injEq]
  refine ⟨rfl, rfl, rfl, rfl, hbase, ?_⟩
  rw [hbase, hvol, specTrafficAdjustment]
  by_cases hct : ct = true
  · rw [if_pos hct, if_pos hct]
    by_cases hr : ratMin (specVolume traffic road / road.capacity) 1 < 7/10
    · rw [if_pos hr, if_pos hr, mul_comm (ratMin (specVolume traffic road / road.capacity) 1) (1/2 : ℚ)]
    · rw [if_neg hr, if_neg hr]
  · rw [if_neg hct, if_neg hct]

/-- Claim C7, confirmed: for every road of the time-dependent router's
graph (roads with pairwise-distinct unordered endpoint pairs), the edge
weight equals base_time × traffic_adjustment, where base_time is the
distance over the condition-derived speed (flat 60 km/h when road quality
is ignored) in minutes, traffic_adjustment is 1 when traffic is ignored
and otherwise piecewise in ratio = min(volume/capacity, 1) with knee 0.7
and congestion factor on ratio², and a road with no recorded volume in
either direction uses half its capacity. -/
theorem C7_edge_weight (nbs : List NbRow) (fac : List FacRow) (roads : List RoadRow)
    (traffic : List TrafficRow) (ct : Bool) (cf : ℚ) (crq : Bool) (r : RoadRow)
    (hmem : r ∈ roads)
    (hnd : roads.Pairwise (fun r1 r2 =>
      ¬ ((r1.fromID = r2.fromID ∧ r1.toID = r2.toID) ∨
         (r1.fromID = r2.toID ∧ r1.toID = r2.fromID)))) :
    (buildTOGraph nbs fac roads (buildTrafficDict traffic) ct cf crq).getEdge
        r.fromID r.toID =
      some ⟨r.distance, r.capacity, r.condition,
        (dictGet (buildTrafficDict traffic) (r.fromID, r.toID)).getD 0,
        specBaseTime crq r,
        specBaseTime crq r * specTrafficAdjustment ct cf (specVolume traffic r) r.capacity⟩ := by
  rw [show buildTOGraph nbs fac roads (buildTrafficDict traffic) ct cf crq =
    roads.foldl (addRoadEdgeTO (buildTrafficDict traffic) ct cf crq)
      (fac.foldl (fun g q => g.addNode q.id ⟨q.name, "facility", 0, q.ftype, (q.x, q.y)⟩)
        (nbs.foldl (fun g q =>
          g.addNode q.id ⟨q.name, "neighborhood", q.population, "", (q.x, q.y)⟩)
          Graph.empty)) from rfl]
  rw [buildTO_fold_getEdge (buildTrafficDict traffic) ct cf crq roads _ r hmem hnd]
  rw [roadEdgeAttr_spec]

/-- Witness for C7 at the one-road network with one traffic measurement:
the membership and distinctness hypotheses hold by computation and the
stored edge equals the specification record. -/
theorem C7_edge_weight_witness :
    (⟨"A", "B", 1, 1000, 10⟩ : RoadRow) ∈ roadsTwo ∧
    roadsTwo.Pairwise (fun r1 r2 =>
      ¬ ((r1.fromID = r2.fromID ∧ r1.toID = r2.toID) ∨
         (r1.fromID = r2.toID ∧ r1.toID = r2.fromID))) ∧
    (buildTOGraph nbsTwo [] roadsTwo (buildTrafficDict [⟨"A", "B", 800⟩]) true (3/2)
        true).getEdge "A" "B" =
      some ⟨1, 1000, 10,
        (dictGet (buildTrafficDict [⟨"A", "B", 800⟩]) ("A", "B")).getD 0,
        specBaseTime true ⟨"A", "B", 1, 1000, 10⟩,
        specBaseTime true ⟨"A", "B", 1, 1000, 10⟩ *
          specTrafficAdjustment true (3/2)
            (specVolume [⟨"A", "B", 800⟩] ⟨"A", "B", 1, 1000, 10⟩) 1000⟩ :=
  ⟨by decide, by decide,
   C7_edge_weight nbsTwo [] roadsTwo [⟨"A", "B", 800⟩] true (3/2) true
     ⟨"A", "B", 1, 1000, 10⟩ (by decide) (by decide)⟩


/-- A running sum fold equals the starting value plus the mapped sum. -/
theorem foldl_add_map {α : Type} (f : α → ℚ) (l : List α) :
    ∀ init : ℚ, l.foldl (fun s x => s + f x) init = init + (l.map f).sum := by
  induction l with
  | nil => intro init; simp
  | cons x rest ih =>
    intro init
    rw [List.foldl_cons, ih]
    simp [add_assoc]

/-- Inserting plans under pairwise-distinct fresh keys builds the keyed
list in order. -/
theorem dictFold_map_of_nodup {ν : Type} (f : NodeId → ν) :
    ∀ (keys : List NodeId) (acc : List (NodeId × ν)),
      keys.Nodup → (∀ k ∈ keys, k ∉ acc.map Prod.fst) →
      keys.foldl (fun d k => dictSet d k (f k)) acc =
        acc ++ keys.map (fun k => (k, f k)) := by
  intro keys
  induction keys with
  | nil => intro acc _ _; simp
  | cons k rest ih =>
    intro acc hnd hfr
    rw [List.foldl_cons, dictSet_fresh _ _ _ (hfr k (List.mem_cons_self _ _))]
    rw [ih (acc ++ [(k, f k)]) (List.Nodup.of_cons hnd) ?_]
    · simp
    · intro k2 hk2
      rw [List.map_append]
      intro hmem
      rcases List.mem_append.mp hmem with h | h
      · exact hfr k2 (List.mem_cons_of_mem _ hk2) h
      · have hk : k2 = k := by simpa using h
        exact (List.nodup_cons.mp hnd).1 (hk ▸ hk2)

/-- The phases of one plan: one per incident traffic row, with the
saturation from the matching road (capacity defaulting to 3000) and the
green time already assigned. -/
theorem signalPlanFor_phases (traffic : List TrafficRow) (roads : List RoadRow)
    (n : NodeId) :
    (signalPlanFor traffic roads n).phases =
      (incidentRows traffic n).map (fun r =>
        (⟨if r.toID == n then r.fromID ++ "-" ++ r.toID else r.toID ++ "-" ++ r.fromID,
          r.volume,
          ratMin (r.volume / ((roads.find? (fun rd =>
            (rd.fromID == r.fromID && rd.toID == r.toID) ||
            (rd.fromID == r.toID && rd.toID == r.fromID))).map
              (fun rd => rd.capacity)).getD 3000) 1,
          0,
          if totalVolumeAt traffic n > 0 then
            intMax 10 (ratTrunc (r.volume / totalVolumeAt traffic n *
              ((if totalVolumeAt traffic n < 2000 then 90
                else if totalVolumeAt traffic n ≤ 5000 then (120 : ℚ) else 180) -
                ((incidentRows traffic n).length : ℚ) * 2)))
          else 10⟩ : Phase)) := by
  simp only [signalPlanFor]
  rw [List.map_map]
  apply List.map_congr_left
  intro r _
  rw [List.length_map]
  rfl

/-- The cycle time is chosen by total-volume tier. -/
theorem signalPlanFor_cycle (traffic : List TrafficRow) (roads : List RoadRow)
    (n : NodeId) :
    (signalPlanFor traffic roads n).cycle_time =
      (if totalVolumeAt traffic n < 2000 then 90
       else if totalVolumeAt traffic n ≤ 5000 then (120 : ℚ) else 180) := rfl

/-- One phase per incident traffic row. -/
theorem signalPlanFor_len (traffic : List TrafficRow) (roads : List RoadRow)
    (n : NodeId) :
    (signalPlanFor traffic roads n).phases.length = (incidentRows traffic n).length := by
  rw [signalPlanFor_phases, List.length_map]

/-- Claim C8, confirmed: the controller returns one plan per intersection,
with cycle_time by total incoming/outgoing volume tier (< 2000 → 90 s,
≤ 5000 → 120 s, else 180 s), each phase's green time the integer
truncation of its proportional share of the budget
cycle_time − 2 × (number of phases), floored at the 10 s minimum green
(10 s outright when there is no volume), avg_wait the mean over phases of
saturation × (cycle_time − green_time) / 2, efficiency
Σ(green_time × volume) / (cycle_time × total_volume) with 1 when the
total volume is zero, and queue_lengths per phase
volume × (cycle_time − green_time) / 3600. -/
theorem C8_signal_plans (inters : List NodeId) (traffic : List TrafficRow)
    (roads : List RoadRow) (n : NodeId) (hnd : inters.Nodup) :
    real_time_signal_optimization inters traffic roads =
      inters.map (fun m => (m, signalPlanFor traffic roads m)) ∧
    (signalPlanFor traffic roads n).cycle_time =
      (if totalVolumeAt traffic n < 2000 then 90
       else if totalVolumeAt traffic n ≤ 5000 then (120 : ℚ) else 180) ∧
    (∀ ph ∈ (signalPlanFor traffic roads n).phases,
      ph.green_time =
        if totalVolumeAt traffic n > 0 then
          intMax 10 (ratTrunc (ph.volume / totalVolumeAt traffic n *
            ((signalPlanFor traffic roads n).cycle_time -
              2 * ((signalPlanFor traffic roads n).phases.length : ℚ))))
        else 10) ∧
    (signalPlanFor traffic roads n).performance.avg_wait_time =
      (if (signalPlanFor traffic roads n).phases.length = 0 then 0
       else ((signalPlanFor traffic roads n).phases.map
          (fun ph => ph.saturation *
            ((signalPlanFor traffic roads n).cycle_time - (ph.green_time : ℚ)) / 2)).sum /
        ((signalPlanFor traffic roads n).phases.length : ℚ)) ∧
    (signalPlanFor traffic roads n).performance.efficiency =
      (if totalVolumeAt traffic n > 0 then
        ((signalPlanFor traffic roads n).phases.map
          (fun ph => (ph.green_time : ℚ) * ph.volume)).sum /
          ((signalPlanFor traffic roads n).cycle_time * totalVolumeAt traffic n)
       else 1) ∧
    (signalPlanFor traffic roads n).performance.queue_lengths =
      (signalPlanFor traffic roads n).phases.map
        (fun ph => ph.volume *
          ((signalPlanFor traffic roads n).cycle_time - (ph.green_time : ℚ)) / 3600) := by
  refine ⟨?_, rfl, ?_, ?_, ?_, rfl⟩
  · rw [real_time_signal_optimization]
    rw [dictFold_map_of_nodup (fun m => signalPlanFor traffic roads m) inters [] hnd
      (by intro k _ h; simp at h)]
    simp
  · intro ph hph
    rw [signalPlanFor_phases] at hph
    obtain ⟨r, hr, rfl⟩ := List.mem_map.mp hph
    rw [signalPlanFor_cycle, signalPlanFor_len,
      mul_comm (2 : ℚ) ((incidentRows traffic n).length : ℚ)]
  · have hfold := foldl_add_map
      (fun ph => ph.saturation *
        ((signalPlanFor traffic roads n).cycle_time - (ph.green_time : ℚ)) / 2)
      (signalPlanFor traffic roads n).phases 0
    rw [zero_add] at hfold
    rw [← hfold]
    rfl
  · have hfold := foldl_add_map
      (fun ph => (ph.green_time : ℚ) * ph.volume)
      (signalPlanFor traffic roads n).phases 0
    rw [zero_add] at hfold
    rw [← hfold]
    rfl

/-- Witness for C8 at a single intersection with two approaches totalling
2300 veh/h: the keyed result matches the per-intersection map and the
cycle lands in the 120 s tier. -/
theorem C8_signal_plans_witness :
    (["X"] : List NodeId).Nodup ∧
    real_time_signal_optimization ["X"] [⟨"A", "X", 1500⟩, ⟨"X", "B", 800⟩]
        [⟨"A", "X", 2, 3000, 8⟩] =
      (["X"] : List NodeId).map (fun m =>
        (m, signalPlanFor [⟨"A", "X", 1500⟩, ⟨"X", "B", 800⟩] [⟨"A", "X", 2, 3000, 8⟩] m)) ∧
    (signalPlanFor [⟨"A", "X", 1500⟩, ⟨"X", "B", 800⟩] [⟨"A", "X", 2, 3000, 8⟩]
        "X").cycle_time = 120 :=
  ⟨by decide,
   (C8_signal_plans ["X"] [⟨"A", "X", 1500⟩, ⟨"X", "B", 800⟩] [⟨"A", "X", 2, 3000, 8⟩]
     "X" (by decide)).1,
   by decide⟩

end CairoTraffic
